import Mathlib

/-
Verification of the casatables_bench harness (src/main.cpp) against its
natural-language specification.

Modelling conventions:
- casacore numeric values (Double, Float, Complex) are modelled as ℚ and ℚ × ℚ;
  the synthesized values and comparisons use the exact arithmetic the formulas
  denote.
- casacore Arrays are modelled as total functions from indices, in the source's
  axis order: `uvws(IPosition(2, j, i))` becomes `uvws j i`,
  `data(IPosition(3, k, j, i))` becomes `data k j i` (k = polarization,
  j = channel, i = row).
- the loops of `synthesize_data` and the fill functions become `List.foldl`
  over `List.range`, performing one point/row-range update per iteration.
- C++ `int` loop bounds become `Nat` counts (`Int.toNat` at the driver level);
  a C++ loop with a non-positive bound runs zero times, matching `List.range`.
- the table store is modelled per column as an array-valued function (initial
  contents arbitrary, standing for the fresh table's undefined cells); a put
  call overwrites the targeted row range.
-/

namespace CasaBench

/-- TableType enum from main.cpp (order of TABLE_TYPES). -/
inductive TableType
  | TIME
  | UVW
  | DATA
  | COLUMNWISE
  | ROWWISE
deriving DecidableEq

/-- WriteMode enum from main.cpp (order of WRITE_MODES). -/
inductive WriteMode
  | CELL
  | CELLS
  | COLUMN
deriving DecidableEq

/-- N_ITERS default. -/
def N_ITERS : Int := 100

/-- N_TIMES default. -/
def N_TIMES : Int := 12

/-- N_ANTS default. -/
def N_ANTS : Int := 128

/-- N_BLS default: N_ANTS * (N_ANTS + 1) / 2. -/
def N_BLS : Int := N_ANTS * (N_ANTS + 1) / 2

/-- N_CHANS default: 24 * 32. -/
def N_CHANS : Int := 24 * 32

/-- N_POLS default. -/
def N_POLS : Int := 4

/-- Args struct from main.cpp with its default member values. -/
structure Args where
  nIters : Int := N_ITERS
  nTimes : Int := N_TIMES
  nBls : Int := N_BLS
  nChs : Int := N_CHANS
  nPols : Int := N_POLS
  verbosity : Int := 0
  writeMode : WriteMode := .CELL
  tableType : TableType := .COLUMNWISE
  validate : Bool := false
  stream : Bool := false
deriving DecidableEq

/-- The TIME column buffer: row index ↦ Double value. -/
abbrev TimeArr := Nat → ℚ

/-- The UVW buffer, source axis order `uvws(IPosition(2, j, i))`:
component j, row i. -/
abbrev UvwArr := Nat → Nat → ℚ

/-- The DATA buffer, source axis order `data(IPosition(3, k, j, i))`:
polarization k, channel j, row i; complex values as pairs (re, im). -/
abbrev DataArr := Nat → Nat → Nat → ℚ × ℚ

/-- Point update of a UVW buffer at (j, i). -/
def updUvw (a : UvwArr) (j i : Nat) (v : ℚ) : UvwArr :=
  fun j' i' => if j' = j ∧ i' = i then v else a j' i'

/-- Point update of a DATA buffer at (k, j, i). -/
def updData (a : DataArr) (k j i : Nat) (v : ℚ × ℚ) : DataArr :=
  fun k' j' i' => if k' = k ∧ j' = j ∧ i' = i then v else a k' j' i'

/-- indgen(times): casacore fills the vector with 0, 1, 2, ...; modelled by its
documented result, `times[i] = i`. -/
def indgen : TimeArr := fun i => (i : ℚ)

/-- The uvw loop of synthesize_data:
for i < shape[1] (rows), for j < shape[0] (3): uvws(j, i) = i + (j+1) * 0.1. -/
def synth_uvws (nRows : Nat) (a0 : UvwArr) : UvwArr :=
  (List.range nRows).foldl (fun a i =>
    (List.range 3).foldl (fun a j =>
      updUvw a j i ((i : ℚ) + ((j : ℚ) + 1) * (1 / 10))) a) a0

/-- The data loop of synthesize_data:
for i < shape[2] (rows), for j < shape[1] (channels), for k < shape[0]
(polarizations): data(k, j, i) = Complex(i, j + (k+1) * 0.1). -/
def synth_data (nPols nChs nRows : Nat) (a0 : DataArr) : DataArr :=
  (List.range nRows).foldl (fun a i =>
    (List.range nChs).foldl (fun a j =>
      (List.range nPols).foldl (fun a k =>
        updData a k j i ((i : ℚ), (j : ℚ) + ((k : ℚ) + 1) * (1 / 10))) a) a) a0

theorem foldl_updUvw_inner (js : List Nat) (i : Nat) (v : Nat → ℚ) (a : UvwArr)
    (j' i' : Nat) :
    ((js.foldl (fun a j => updUvw a j i (v j)) a) j' i') =
      if j' ∈ js ∧ i' = i then v j' else a j' i' := by
  induction js generalizing a with
  | nil => simp
  | cons j js ih =>
    rw [List.foldl_cons, ih]
    by_cases hmem : j' ∈ js <;> by_cases hi : i' = i <;>
      simp [updUvw, hmem, hi, List.mem_cons] <;>
      by_cases hj : j' = j <;> simp [hj]

theorem synth_uvws_apply (nRows : Nat) (a0 : UvwArr) (j i : Nat) :
    synth_uvws nRows a0 j i =
      if j < 3 ∧ i < nRows then (i : ℚ) + ((j : ℚ) + 1) * (1 / 10)
      else a0 j i := by
  unfold synth_uvws
  induction nRows generalizing a0 with
  | zero => simp
  | succ n ih =>
    rw [List.range_succ n, List.foldl_append, List.foldl_cons, List.foldl_nil,
      foldl_updUvw_inner, ih]
    by_cases hj : j < 3 <;> by_cases hi : i < n <;> by_cases hin : i = n <;>
      simp [hj, hi, hin, List.mem_range, Nat.lt_succ_iff_lt_or_eq] <;> omega

theorem foldl_updData_inner (ks : List Nat) (j i : Nat) (v : Nat → ℚ × ℚ)
    (a : DataArr) (k' j' i' : Nat) :
    ((ks.foldl (fun a k => updData a k j i (v k)) a) k' j' i') =
      if k' ∈ ks ∧ j' = j ∧ i' = i then v k' else a k' j' i' := by
  induction ks generalizing a with
  | nil => simp
  | cons k ks ih =>
    rw [List.foldl_cons, ih]
    by_cases hmem : k' ∈ ks <;> by_cases hj : j' = j <;> by_cases hi : i' = i <;>
      simp [updData, hmem, hj, hi, List.mem_cons] <;>
      by_cases hk : k' = k <;> simp [hk]

theorem foldl_updData_mid (js : List Nat) (nPols i : Nat)
    (v : Nat → Nat → ℚ × ℚ) (a : DataArr) (k' j' i' : Nat) :
    ((js.foldl (fun a j =>
        (List.range nPols).foldl (fun a k => updData a k j i (v k j)) a) a) k' j' i') =
      if k' < nPols ∧ j' ∈ js ∧ i' = i then v k' j' else a k' j' i' := by
  induction js generalizing a with
  | nil => simp
  | cons j js ih =>
    rw [List.foldl_cons, ih, foldl_updData_inner]
    by_cases hk : k' < nPols <;> by_cases hmem : j' ∈ js <;>
      by_cases hi : i' = i <;>
      simp [hk, hmem, hi, List.mem_cons, List.mem_range] <;>
      by_cases hj : j' = j <;> simp [hj]

theorem synth_data_apply (nPols nChs nRows : Nat) (a0 : DataArr) (k j i : Nat) :
    synth_data nPols nChs nRows a0 k j i =
      if k < nPols ∧ j < nChs ∧ i < nRows then
        ((i : ℚ), (j : ℚ) + ((k : ℚ) + 1) * (1 / 10))
      else a0 k j i := by
  unfold synth_data
  induction nRows generalizing a0 with
  | zero => simp
  | succ n ih =>
    rw [List.range_succ n, List.foldl_append, List.foldl_cons, List.foldl_nil,
      foldl_updData_mid, ih]
    by_cases hk : k < nPols <;> by_cases hj : j < nChs <;>
      by_cases hi : i < n <;> by_cases hin : i = n <;>
      simp [hk, hj, hi, hin, List.mem_range, Nat.lt_succ_iff_lt_or_eq] <;> omega

/-- IPosition: the shape of a casacore Array, one extent per axis. -/
abbrev Shape := List Nat

/-- Array::removeDegenerate(): drops every axis of extent 1; when all axes
are degenerate a single length-1 axis remains. -/
def removeDegenerate (s : Shape) : Shape :=
  let r := s.filter fun n => n != 1
  if r.isEmpty then [1] else r

/-- Shape of the uvws array after synthesize_data: allocated as (3, nRows)
(main.cpp:615) and reduced by removeDegenerate when writeMode is CELL
(main.cpp:211-214). removeDegenerate reshapes without changing the stored
values, so the value buffers synth_uvws / synth_data are unaffected; only
the dimensionality seen by the downstream Slicers changes. -/
def synth_uvw_shape (wm : WriteMode) (nRows : Nat) : Shape :=
  if wm = .CELL then removeDegenerate [3, nRows] else [3, nRows]

/-- Shape of the data array after synthesize_data: allocated as
(nPols, nChs, nRows) (main.cpp:616), reduced by removeDegenerate when
writeMode is CELL. -/
def synth_data_shape (wm : WriteMode) (nPols nChs nRows : Nat) : Shape :=
  if wm = .CELL then removeDegenerate [nPols, nChs, nRows]
  else [nPols, nChs, nRows]

theorem removeDegenerate_pair (a b : Nat) (ha : a ≠ 1) (hb : b ≠ 1) :
    removeDegenerate [a, b] = [a, b] := by
  unfold removeDegenerate
  have hf : ([a, b].filter fun n => n != 1) = [a, b] := by
    simp [List.filter_cons, ha, hb]
  simp [hf]

theorem removeDegenerate_data_cell (P C : Nat) (hP : P ≠ 1) (hC : C ≠ 1) :
    removeDegenerate [P, C, 1] = [P, C] := by
  unfold removeDegenerate
  have hf : ([P, C, 1].filter fun n => n != 1) = [P, C] := by
    simp [List.filter_cons, hP, hC]
  simp [hf]

theorem removeDegenerate_triple (a b c : Nat) (ha : a ≠ 1) (hb : b ≠ 1)
    (hc : c ≠ 1) : removeDegenerate [a, b, c] = [a, b, c] := by
  unfold removeDegenerate
  have hf : ([a, b, c].filter fun n => n != 1) = [a, b, c] := by
    simp [List.filter_cons, ha, hb, hc]
  simp [hf]

theorem synth_uvw_shape_eq (wm : WriteMode) (R : Nat)
    (h : wm = .CELL → R ≠ 1) : synth_uvw_shape wm R = [3, R] := by
  cases wm with
  | CELL => exact removeDegenerate_pair 3 R (by omega) (h rfl)
  | CELLS => rfl
  | COLUMN => rfl

theorem synth_data_shape_eq (wm : WriteMode) (P C R : Nat) (hP : P ≠ 1)
    (hC : C ≠ 1) (h : wm = .CELL → R ≠ 1) :
    synth_data_shape wm P C R = [P, C, R] := by
  cases wm with
  | CELL => exact removeDegenerate_triple P C R hP hC (h rfl)
  | CELLS => rfl
  | COLUMN => rfl

theorem toNat_mul_pos (x y : Int) (hx : 1 ≤ x) (hy : 1 ≤ y) :
    (x * y).toNat = x.toNat * y.toNat := by
  obtain ⟨p, rfl⟩ := Int.eq_ofNat_of_zero_le (by omega : (0 : Int) ≤ x)
  obtain ⟨q, rfl⟩ := Int.eq_ofNat_of_zero_le (by omega : (0 : Int) ≤ y)
  rw [← Int.natCast_mul]
  rfl

/-- casacore ArrayError: a Slicer with a fixed number of axes applied to an
array of different dimensionality — the CELL/CELLS row and chunk slices
(main.cpp:268/276, 313/321, 361-364, 371-379) after a CELL-mode
removeDegenerate has reduced the array. The axis count is the modelled
precondition; the slice bounds are always in range at this program's call
sites. -/
structure SliceError where
  arrayShape : Shape
  slicerAxes : Nat
deriving DecidableEq

/-- Does the wm-mode row slicing of an array with the given shape throw?
CELL runs one slice per row (nTimes*nBls iterations), CELLS one per time
step (nTimes iterations); the throw, if any, happens on the first
iteration, before any put. COLUMN slices nothing (putColumn). -/
def sliceFails (wm : WriteMode) (nTimes nBls : Nat) (s : Shape)
    (axes : Nat) : Bool :=
  match wm with
  | .CELL => decide (0 < nTimes * nBls) && decide (s.length ≠ axes)
  | .CELLS => decide (0 < nTimes) && decide (s.length ≠ axes)
  | .COLUMN => false

/-- Store write for the TIME column: a put/putColumnRange/putColumn call
covering rows [lo, lo+len), copying from the source buffer. -/
def writeTimeRows (src : TimeArr) (lo len : Nat) (st : TimeArr) : TimeArr :=
  fun i => if lo ≤ i ∧ i < lo + len then src i else st i

/-- Store write for the UVW column covering rows [lo, lo+len). -/
def writeUvwRows (src : UvwArr) (lo len : Nat) (st : UvwArr) : UvwArr :=
  fun j i => if lo ≤ i ∧ i < lo + len then src j i else st j i

/-- Store write for the DATA column covering rows [lo, lo+len). -/
def writeDataRows (src : DataArr) (lo len : Nat) (st : DataArr) : DataArr :=
  fun k j i => if lo ≤ i ∧ i < lo + len then src k j i else st k j i

/-- The (start row, row count) write units of fill_time_col, in loop order:
CELL puts one row per iteration, CELLS puts one Slicer(i*nBls, nBls) chunk per
time step, COLUMN does a single putColumn of all nTimes*nBls rows. -/
def fill_time_units (wm : WriteMode) (nTimes nBls : Nat) : List (Nat × Nat) :=
  match wm with
  | .CELL => (List.range (nTimes * nBls)).map fun i => (i, 1)
  | .CELLS => (List.range nTimes).map fun t => (t * nBls, nBls)
  | .COLUMN => [(0, nTimes * nBls)]

/-- The write units of fill_uvw_col (same loop structure as fill_time_col;
CELLS uses RefRows(i*nBls, (i+1)*nBls - 1), i.e. the same row range). -/
def fill_uvw_units (wm : WriteMode) (nTimes nBls : Nat) : List (Nat × Nat) :=
  match wm with
  | .CELL => (List.range (nTimes * nBls)).map fun i => (i, 1)
  | .CELLS => (List.range nTimes).map fun t => (t * nBls, nBls)
  | .COLUMN => [(0, nTimes * nBls)]

/-- The write units of fill_data_col (same loop structure as fill_time_col). -/
def fill_data_units (wm : WriteMode) (nTimes nBls : Nat) : List (Nat × Nat) :=
  match wm with
  | .CELL => (List.range (nTimes * nBls)).map fun i => (i, 1)
  | .CELLS => (List.range nTimes).map fun t => (t * nBls, nBls)
  | .COLUMN => [(0, nTimes * nBls)]

/-- fill_time_col: performs its write units in order against the store. -/
def fill_time_col (wm : WriteMode) (nTimes nBls : Nat) (times : TimeArr)
    (st : TimeArr) : TimeArr :=
  (fill_time_units wm nTimes nBls).foldl (fun s u => writeTimeRows times u.1 u.2 s) st

/-- The put calls of fill_uvw_col once its slicing has succeeded. -/
def fill_uvw_writes (wm : WriteMode) (nTimes nBls : Nat) (uvws : UvwArr)
    (st : UvwArr) : UvwArr :=
  (fill_uvw_units wm nTimes nBls).foldl (fun s u => writeUvwRows uvws u.1 u.2 s) st

/-- fill_uvw_col: CELL and CELLS build a 2-axis Slicer over uvws
(main.cpp:268/276); casacore throws when the array's dimensionality differs
(possible after synthesize_data's CELL-mode removeDegenerate), on the first
iteration and before any put. Otherwise the write units are performed in
order. -/
def fill_uvw_col (wm : WriteMode) (nTimes nBls : Nat) (uvwShape : Shape)
    (uvws : UvwArr) (st : UvwArr) : Except SliceError UvwArr :=
  if sliceFails wm nTimes nBls uvwShape 2 then .error ⟨uvwShape, 2⟩
  else .ok (fill_uvw_writes wm nTimes nBls uvws st)

/-- The put calls of fill_data_col once its slicing has succeeded. -/
def fill_data_writes (wm : WriteMode) (nTimes nBls : Nat) (data : DataArr)
    (st : DataArr) : DataArr :=
  (fill_data_units wm nTimes nBls).foldl (fun s u => writeDataRows data u.1 u.2 s) st

/-- fill_data_col: CELL and CELLS build a 3-axis Slicer over data
(main.cpp:313/321); casacore throws when the array's dimensionality differs
(possible after the CELL-mode removeDegenerate), on the first iteration and
before any put. Otherwise the write units are performed in order. -/
def fill_data_col (wm : WriteMode) (nTimes nBls : Nat) (dataShape : Shape)
    (data : DataArr) (st : DataArr) : Except SliceError DataArr :=
  if sliceFails wm nTimes nBls dataShape 3 then .error ⟨dataShape, 3⟩
  else .ok (fill_data_writes wm nTimes nBls data st)

theorem foldl_writeTimeRows (rs : List (Nat × Nat)) (src st : TimeArr) (i : Nat) :
    (rs.foldl (fun s u => writeTimeRows src u.1 u.2 s) st) i =
      if ∃ u ∈ rs, u.1 ≤ i ∧ i < u.1 + u.2 then src i else st i := by
  induction rs generalizing st with
  | nil => simp
  | cons u rs ih =>
    rw [List.foldl_cons, ih]
    by_cases hu : u.1 ≤ i ∧ i < u.1 + u.2 <;>
      by_cases hmem : ∃ v ∈ rs, v.1 ≤ i ∧ i < v.1 + v.2 <;>
      simp [writeTimeRows, hu, hmem, List.mem_cons, exists_eq_or_imp]

theorem foldl_writeUvwRows (rs : List (Nat × Nat)) (src st : UvwArr) (j i : Nat) :
    (rs.foldl (fun s u => writeUvwRows src u.1 u.2 s) st) j i =
      if ∃ u ∈ rs, u.1 ≤ i ∧ i < u.1 + u.2 then src j i else st j i := by
  induction rs generalizing st with
  | nil => simp
  | cons u rs ih =>
    rw [List.foldl_cons, ih]
    by_cases hu : u.1 ≤ i ∧ i < u.1 + u.2 <;>
      by_cases hmem : ∃ v ∈ rs, v.1 ≤ i ∧ i < v.1 + v.2 <;>
      simp [writeUvwRows, hu, hmem, List.mem_cons, exists_eq_or_imp]

theorem foldl_writeDataRows (rs : List (Nat × Nat)) (src st : DataArr)
    (k j i : Nat) :
    (rs.foldl (fun s u => writeDataRows src u.1 u.2 s) st) k j i =
      if ∃ u ∈ rs, u.1 ≤ i ∧ i < u.1 + u.2 then src k j i else st k j i := by
  induction rs generalizing st with
  | nil => simp
  | cons u rs ih =>
    rw [List.foldl_cons, ih]
    by_cases hu : u.1 ≤ i ∧ i < u.1 + u.2 <;>
      by_cases hmem : ∃ v ∈ rs, v.1 ≤ i ∧ i < v.1 + v.2 <;>
      simp [writeDataRows, hu, hmem, List.mem_cons, exists_eq_or_imp]

theorem chunk_cover (nT nB : Nat) :
    ∀ i, i < nT * nB → ∃ t, t < nT ∧ t * nB ≤ i ∧ i < t * nB + nB := by
  induction nT with
  | zero => intro i hi; simp at hi
  | succ n ih =>
    intro i hi
    rcases Nat.lt_or_ge i (n * nB) with h | h
    · obtain ⟨t, ht, h1, h2⟩ := ih i h
      exact ⟨t, Nat.lt_succ_of_lt ht, h1, h2⟩
    · refine ⟨n, Nat.lt_succ_self n, h, ?_⟩
      rw [Nat.succ_mul] at hi
      exact hi

theorem fill_time_units_covers (wm : WriteMode) (nT nB i : Nat)
    (hi : i < nT * nB) :
    ∃ u ∈ fill_time_units wm nT nB, u.1 ≤ i ∧ i < u.1 + u.2 := by
  cases wm with
  | CELL =>
    exact ⟨(i, 1), List.mem_map.mpr ⟨i, List.mem_range.mpr hi, rfl⟩,
      Nat.le_refl i, Nat.lt_succ_self i⟩
  | CELLS =>
    obtain ⟨t, ht, h1, h2⟩ := chunk_cover nT nB i hi
    exact ⟨(t * nB, nB), List.mem_map.mpr ⟨t, List.mem_range.mpr ht, rfl⟩, h1, h2⟩
  | COLUMN =>
    exact ⟨(0, nT * nB), List.mem_singleton.mpr rfl, Nat.zero_le i,
      by simpa using hi⟩

theorem fill_uvw_units_eq (wm : WriteMode) (nT nB : Nat) :
    fill_uvw_units wm nT nB = fill_time_units wm nT nB := by
  cases wm <;> rfl

theorem fill_data_units_eq (wm : WriteMode) (nT nB : Nat) :
    fill_data_units wm nT nB = fill_time_units wm nT nB := by
  cases wm <;> rfl

theorem fill_time_col_eq (wm : WriteMode) (nT nB : Nat) (times st : TimeArr)
    (i : Nat) (hi : i < nT * nB) :
    fill_time_col wm nT nB times st i = times i := by
  unfold fill_time_col
  rw [foldl_writeTimeRows]
  simp [fill_time_units_covers wm nT nB i hi]

theorem fill_uvw_writes_eq (wm : WriteMode) (nT nB : Nat) (uvws st : UvwArr)
    (j i : Nat) (hi : i < nT * nB) :
    fill_uvw_writes wm nT nB uvws st j i = uvws j i := by
  unfold fill_uvw_writes
  rw [foldl_writeUvwRows, fill_uvw_units_eq]
  simp [fill_time_units_covers wm nT nB i hi]

theorem fill_data_writes_eq (wm : WriteMode) (nT nB : Nat) (data st : DataArr)
    (k j i : Nat) (hi : i < nT * nB) :
    fill_data_writes wm nT nB data st k j i = data k j i := by
  unfold fill_data_writes
  rw [foldl_writeDataRows, fill_data_units_eq]
  simp [fill_time_units_covers wm nT nB i hi]

theorem fill_uvw_col_ok (wm : WriteMode) (nT nB : Nat) (uvwShape : Shape)
    (uvws st : UvwArr) (h2 : uvwShape.length = 2) :
    fill_uvw_col wm nT nB uvwShape uvws st =
      .ok (fill_uvw_writes wm nT nB uvws st) := by
  cases wm <;> simp [fill_uvw_col, sliceFails, h2]

theorem fill_data_col_ok (wm : WriteMode) (nT nB : Nat) (dataShape : Shape)
    (data st : DataArr) (h3 : dataShape.length = 3) :
    fill_data_col wm nT nB dataShape data st =
      .ok (fill_data_writes wm nT nB data st) := by
  cases wm <;> simp [fill_data_col, sliceFails, h3]

theorem units_tile_CELL (n : Nat) :
    (((List.range n).map fun i => (i, 1)).flatMap fun u => List.range' u.1 u.2) =
      List.range n := by
  induction n with
  | zero => simp
  | succ m ih =>
    rw [List.range_succ m, List.map_append, List.flatMap_append, ih]
    simp

theorem units_tile_CELLS (nT nB : Nat) :
    (((List.range nT).map fun t => (t * nB, nB)).flatMap
        fun u => List.range' u.1 u.2) = List.range (nT * nB) := by
  induction nT with
  | zero => simp
  | succ n ih =>
    rw [List.range_succ n, List.map_append, List.flatMap_append, ih]
    simp only [List.map_cons, List.map_nil, List.flatMap_cons, List.flatMap_nil,
      List.append_nil]
    rw [List.range_eq_range', List.range_eq_range']
    have h := List.range'_append 0 (n * nB) nB 1
    simp only [Nat.one_mul, Nat.zero_add] at h
    rw [h, Nat.succ_mul, Nat.add_comm]

theorem fill_time_units_tile (wm : WriteMode) (nT nB : Nat) :
    ((fill_time_units wm nT nB).flatMap fun u => List.range' u.1 u.2) =
      List.range (nT * nB) := by
  cases wm with
  | CELL => exact units_tile_CELL (nT * nB)
  | CELLS => exact units_tile_CELLS nT nB
  | COLUMN => simp [fill_time_units, List.range_eq_range']

/-- First position, in iteration order, at which two buffers disagree; the
comparison loops of compare_time_col / compare_uvw_values / compare_data_values
test exact equality element by element and throw at the first difference. -/
def firstDiff {ι α : Type} [DecidableEq α] (f g : ι → α) : List ι → Option ι
  | [] => none
  | i :: is => if f i = g i then firstDiff f g is else some i

/-- The payload of the "time mismatch ... at row=i: actual != expected"
runtime error of compare_time_col. -/
structure TimeMismatch where
  row : Nat
  actual : ℚ
  expected : ℚ
deriving DecidableEq

/-- The payload of the "uvw value mismatch ... at row=i, [j]" runtime error of
compare_uvw_values (the printed delta is |actual - expected|, derived). -/
structure UvwMismatch where
  row : Nat
  j : Nat
  actual : ℚ
  expected : ℚ
deriving DecidableEq

/-- The payload of the "data value mismatch ... at row=i, [j, k]" runtime
error of compare_data_values. -/
structure DataMismatch where
  row : Nat
  j : Nat
  k : Nat
  actual : ℚ × ℚ
  expected : ℚ × ℚ
deriving DecidableEq

/-- compare_time_col: for i < nTimes*nBls, throws on the first row where the
read-back value differs from the reference (exact inequality test). -/
def compare_time_col (nTimes nBls : Nat) (st times : TimeArr) :
    Except TimeMismatch Unit :=
  match firstDiff st times (List.range (nTimes * nBls)) with
  | none => .ok ()
  | some i => .error ⟨i, st i, times i⟩

/-- Element positions (row i, component j) visited by compare_uvw_values, in
its loop order: rows outer, j < shape[0] = 3 inner. -/
def uvw_positions (nRows : Nat) : List (Nat × Nat) :=
  (List.range nRows).flatMap fun i => (List.range 3).map fun j => (i, j)

/-- Value loops of compare_uvw_col: throw on the first (row, component)
where the read-back value differs from the reference. -/
def compare_uvw_values (nRows : Nat) (st uvws : UvwArr) : Except UvwMismatch Unit :=
  match firstDiff (fun p => st p.2 p.1) (fun p => uvws p.2 p.1)
      (uvw_positions nRows) with
  | none => .ok ()
  | some p => .error ⟨p.1, p.2, st p.2 p.1, uvws p.2 p.1⟩

/-- Element positions (row i, channel j, polarization k) visited by
compare_data_values, in its loop order: rows outer, then j < shape[1] = nChs,
then k < shape[0] = nPols. -/
def data_positions (nRows nChs nPols : Nat) : List (Nat × Nat × Nat) :=
  (List.range nRows).flatMap fun i =>
    (List.range nChs).flatMap fun j =>
      (List.range nPols).map fun k => (i, j, k)

/-- Value loops of compare_data_col: throw on the first
(row, channel, polarization) where the read-back value differs from the
reference. -/
def compare_data_values (nRows nChs nPols : Nat) (st data : DataArr) :
    Except DataMismatch Unit :=
  match firstDiff (fun p => st p.2.2 p.2.1 p.1) (fun p => data p.2.2 p.2.1 p.1)
      (data_positions nRows nChs nPols) with
  | none => .ok ()
  | some p => .error ⟨p.1, p.2.1, p.2.2, st p.2.2 p.2.1 p.1, data p.2.2 p.2.1 p.1⟩

theorem firstDiff_eq_none_iff {ι α : Type} [DecidableEq α] (f g : ι → α)
    (l : List ι) :
    firstDiff f g l = none ↔ ∀ i ∈ l, f i = g i := by
  induction l with
  | nil => simp [firstDiff]
  | cons a as ih => by_cases h : f a = g a <;> simp [firstDiff, h, ih]

theorem firstDiff_eq_some {ι α : Type} [DecidableEq α] {f g : ι → α}
    {l : List ι} {i : ι} (h : firstDiff f g l = some i) :
    f i ≠ g i ∧ ∃ l₁ l₂, l = l₁ ++ i :: l₂ ∧ ∀ x ∈ l₁, f x = g x := by
  induction l with
  | nil => simp [firstDiff] at h
  | cons a as ih =>
    by_cases ha : f a = g a
    · rw [firstDiff, if_pos ha] at h
      obtain ⟨hne, l₁, l₂, heq, hall⟩ := ih h
      refine ⟨hne, a :: l₁, l₂, by rw [heq]; rfl, ?_⟩
      intro x hx
      rcases List.mem_cons.mp hx with rfl | hx
      · exact ha
      · exact hall x hx
    · rw [firstDiff, if_neg ha] at h
      obtain rfl := Option.some.inj h
      exact ⟨ha, [], as, rfl, by simp⟩

/-- Loop order of compare_uvw_values: row-major, component-minor. -/
def uvwPosLt (p q : Nat × Nat) : Prop :=
  p.1 < q.1 ∨ (p.1 = q.1 ∧ p.2 < q.2)

/-- Loop order of compare_data_values: row, then channel, then polarization. -/
def dataPosLt (p q : Nat × Nat × Nat) : Prop :=
  p.1 < q.1 ∨ (p.1 = q.1 ∧ (p.2.1 < q.2.1 ∨ (p.2.1 = q.2.1 ∧ p.2.2 < q.2.2)))

theorem mem_uvw_positions (nRows : Nat) (p : Nat × Nat) :
    p ∈ uvw_positions nRows ↔ p.1 < nRows ∧ p.2 < 3 := by
  obtain ⟨i, j⟩ := p
  simp only [uvw_positions, List.mem_flatMap, List.mem_map, List.mem_range,
    Prod.mk.injEq]
  constructor
  · rintro ⟨a, ha, b, hb, rfl, rfl⟩
    exact ⟨ha, hb⟩
  · rintro ⟨hi, hj⟩
    exact ⟨i, hi, j, hj, rfl, rfl⟩

theorem mem_data_positions (nRows nChs nPols : Nat) (p : Nat × Nat × Nat) :
    p ∈ data_positions nRows nChs nPols ↔
      p.1 < nRows ∧ p.2.1 < nChs ∧ p.2.2 < nPols := by
  obtain ⟨i, j, k⟩ := p
  simp only [data_positions, List.mem_flatMap, List.mem_map, List.mem_range,
    Prod.mk.injEq]
  constructor
  · rintro ⟨a, ha, b, hb, c, hc, rfl, rfl, rfl⟩
    exact ⟨ha, hb, hc⟩
  · rintro ⟨hi, hj, hk⟩
    exact ⟨i, hi, j, hj, k, hk, rfl, rfl, rfl⟩

theorem pairwise_uvw_positions (nRows : Nat) :
    (uvw_positions nRows).Pairwise uvwPosLt := by
  unfold uvw_positions
  induction nRows with
  | zero => simp
  | succ n ih =>
    rw [List.range_succ n, List.flatMap_append]
    refine List.pairwise_append.mpr ⟨ih, ?_, ?_⟩
    · simp only [List.flatMap_cons, List.flatMap_nil, List.append_nil]
      refine List.pairwise_map.mpr ?_
      refine (List.pairwise_lt_range 3).imp ?_
      intro a b hab
      exact Or.inr ⟨rfl, hab⟩
    · intro p hp q hq
      have hp' := (mem_uvw_positions n p).mp hp
      simp only [List.flatMap_cons, List.flatMap_nil, List.append_nil,
        List.mem_map, List.mem_range] at hq
      obtain ⟨b, _, rfl⟩ := hq
      exact Or.inl hp'.1

theorem pairwise_data_block (i nChs nPols : Nat) :
    ((List.range nChs).flatMap fun j =>
        (List.range nPols).map fun k => (i, j, k)).Pairwise dataPosLt := by
  induction nChs with
  | zero => simp
  | succ m ih =>
    rw [List.range_succ m, List.flatMap_append]
    refine List.pairwise_append.mpr ⟨ih, ?_, ?_⟩
    · simp only [List.flatMap_cons, List.flatMap_nil, List.append_nil]
      refine List.pairwise_map.mpr ?_
      refine (List.pairwise_lt_range nPols).imp ?_
      intro a b hab
      exact Or.inr ⟨rfl, Or.inr ⟨rfl, hab⟩⟩
    · intro p hp q hq
      simp only [List.mem_flatMap, List.mem_map, List.mem_range] at hp
      obtain ⟨j, hj, k, _, rfl⟩ := hp
      simp only [List.flatMap_cons, List.flatMap_nil, List.append_nil,
        List.mem_map, List.mem_range] at hq
      obtain ⟨b, _, rfl⟩ := hq
      exact Or.inr ⟨rfl, Or.inl hj⟩

theorem pairwise_data_positions (nRows nChs nPols : Nat) :
    (data_positions nRows nChs nPols).Pairwise dataPosLt := by
  unfold data_positions
  induction nRows with
  | zero => simp
  | succ n ih =>
    rw [List.range_succ n, List.flatMap_append]
    refine List.pairwise_append.mpr ⟨ih, ?_, ?_⟩
    · simp only [List.flatMap_cons, List.flatMap_nil, List.append_nil]
      exact pairwise_data_block n nChs nPols
    · intro p hp q hq
      have hp' := (mem_data_positions n nChs nPols p).mp hp
      simp only [List.flatMap_cons, List.flatMap_nil, List.append_nil,
        List.mem_flatMap, List.mem_map, List.mem_range] at hq
      obtain ⟨j, _, k, _, rfl⟩ := hq
      exact Or.inl hp'.1

theorem firstDiff_mem {ι α : Type} [DecidableEq α] {f g : ι → α} {l : List ι}
    {i : ι} (h : firstDiff f g l = some i) : i ∈ l := by
  obtain ⟨_, l₁, l₂, rfl, _⟩ := firstDiff_eq_some h
  exact List.mem_append_right _ (List.mem_cons_self i l₂)

theorem firstDiff_before {ι α : Type} [DecidableEq α] {f g : ι → α} {l : List ι}
    {i : ι} (r : ι → ι → Prop) (hpw : l.Pairwise r)
    (hasym : ∀ a b, r a b → r b a → False) (hirr : ∀ a, r a a → False)
    (h : firstDiff f g l = some i) :
    ∀ x ∈ l, r x i → f x = g x := by
  obtain ⟨hne, l₁, l₂, heq, hall⟩ := firstDiff_eq_some h
  subst heq
  intro x hx hr
  rcases List.mem_append.mp hx with hx1 | hx2
  · exact hall x hx1
  · rcases List.mem_cons.mp hx2 with rfl | hx2
    · exact (hirr x hr).elim
    · have hpw2 : (i :: l₂).Pairwise r := (List.pairwise_append.mp hpw).2.1
      have hxi := (List.pairwise_cons.mp hpw2).1 x hx2
      exact (hasym x i hr hxi).elim

theorem compare_time_col_ok_iff (nT nB : Nat) (st times : TimeArr) :
    compare_time_col nT nB st times = .ok () ↔
      ∀ i < nT * nB, st i = times i := by
  unfold compare_time_col
  cases hfd : firstDiff st times (List.range (nT * nB)) with
  | none =>
    simp only [true_iff]
    intro i hi
    exact (firstDiff_eq_none_iff _ _ _).mp hfd i (List.mem_range.mpr hi)
  | some i =>
    constructor
    · intro h
      cases h
    · intro hall
      obtain ⟨hne, _⟩ := firstDiff_eq_some hfd
      have hi := List.mem_range.mp (firstDiff_mem hfd)
      exact (hne (hall i hi)).elim

theorem compare_time_col_error (nT nB : Nat) (st times : TimeArr)
    (e : TimeMismatch) (h : compare_time_col nT nB st times = .error e) :
    e.row < nT * nB ∧ st e.row ≠ times e.row ∧ e.actual = st e.row ∧
      e.expected = times e.row ∧ ∀ i < e.row, st i = times i := by
  unfold compare_time_col at h
  cases hfd : firstDiff st times (List.range (nT * nB)) with
  | none =>
    rw [hfd] at h
    cases h
  | some i =>
    rw [hfd] at h
    obtain rfl : (⟨i, st i, times i⟩ : TimeMismatch) = e := by
      injection h
    obtain ⟨hne, _⟩ := firstDiff_eq_some hfd
    have hi := List.mem_range.mp (firstDiff_mem hfd)
    refine ⟨hi, hne, rfl, rfl, ?_⟩
    intro x hx
    exact firstDiff_before (· < ·) (List.pairwise_lt_range _)
      (fun a b h1 h2 => by omega) (fun a h1 => by omega) hfd x
      (List.mem_range.mpr (Nat.lt_trans hx hi)) hx

theorem compare_uvw_values_ok_iff (nRows : Nat) (st uvws : UvwArr) :
    compare_uvw_values nRows st uvws = .ok () ↔
      ∀ i < nRows, ∀ j < 3, st j i = uvws j i := by
  unfold compare_uvw_values
  cases hfd : firstDiff (fun p => st p.2 p.1) (fun p => uvws p.2 p.1)
      (uvw_positions nRows) with
  | none =>
    simp only [true_iff]
    intro i hi j hj
    exact (firstDiff_eq_none_iff _ _ _).mp hfd (i, j)
      ((mem_uvw_positions nRows (i, j)).mpr ⟨hi, hj⟩)
  | some p =>
    constructor
    · intro h
      cases h
    · intro hall
      obtain ⟨hne, _⟩ := firstDiff_eq_some hfd
      have hp := (mem_uvw_positions nRows p).mp (firstDiff_mem hfd)
      exact (hne (hall p.1 hp.1 p.2 hp.2)).elim

theorem compare_uvw_values_error (nRows : Nat) (st uvws : UvwArr)
    (e : UvwMismatch) (h : compare_uvw_values nRows st uvws = .error e) :
    e.row < nRows ∧ e.j < 3 ∧ st e.j e.row ≠ uvws e.j e.row ∧
      e.actual = st e.j e.row ∧ e.expected = uvws e.j e.row ∧
      ∀ i j, j < 3 → (i < e.row ∨ (i = e.row ∧ j < e.j)) →
        st j i = uvws j i := by
  unfold compare_uvw_values at h
  cases hfd : firstDiff (fun p => st p.2 p.1) (fun p => uvws p.2 p.1)
      (uvw_positions nRows) with
  | none =>
    rw [hfd] at h
    cases h
  | some p =>
    rw [hfd] at h
    obtain rfl : (⟨p.1, p.2, st p.2 p.1, uvws p.2 p.1⟩ : UvwMismatch) = e := by
      injection h
    obtain ⟨hne, _⟩ := firstDiff_eq_some hfd
    have hp := (mem_uvw_positions nRows p).mp (firstDiff_mem hfd)
    refine ⟨hp.1, hp.2, hne, rfl, rfl, ?_⟩
    intro i j hj hlt
    have hmem : (i, j) ∈ uvw_positions nRows := by
      refine (mem_uvw_positions nRows (i, j)).mpr ⟨?_, hj⟩
      rcases hlt with h1 | ⟨h1, _⟩
      · exact Nat.lt_trans h1 hp.1
      · exact h1 ▸ hp.1
    exact firstDiff_before uvwPosLt (pairwise_uvw_positions nRows)
      (fun a b h1 h2 => by
        simp only [uvwPosLt] at h1 h2
        omega)
      (fun a h1 => by
        simp only [uvwPosLt] at h1
        omega)
      hfd (i, j) hmem hlt

theorem compare_data_values_ok_iff (nRows nChs nPols : Nat) (st data : DataArr) :
    compare_data_values nRows nChs nPols st data = .ok () ↔
      ∀ i < nRows, ∀ j < nChs, ∀ k < nPols, st k j i = data k j i := by
  unfold compare_data_values
  cases hfd : firstDiff (fun p => st p.2.2 p.2.1 p.1)
      (fun p => data p.2.2 p.2.1 p.1) (data_positions nRows nChs nPols) with
  | none =>
    simp only [true_iff]
    intro i hi j hj k hk
    exact (firstDiff_eq_none_iff _ _ _).mp hfd (i, j, k)
      ((mem_data_positions nRows nChs nPols (i, j, k)).mpr ⟨hi, hj, hk⟩)
  | some p =>
    constructor
    · intro h
      cases h
    · intro hall
      obtain ⟨hne, _⟩ := firstDiff_eq_some hfd
      have hp := (mem_data_positions nRows nChs nPols p).mp (firstDiff_mem hfd)
      exact (hne (hall p.1 hp.1 p.2.1 hp.2.1 p.2.2 hp.2.2)).elim

theorem compare_data_values_error (nRows nChs nPols : Nat) (st data : DataArr)
    (e : DataMismatch)
    (h : compare_data_values nRows nChs nPols st data = .error e) :
    e.row < nRows ∧ e.j < nChs ∧ e.k < nPols ∧
      st e.k e.j e.row ≠ data e.k e.j e.row ∧
      e.actual = st e.k e.j e.row ∧ e.expected = data e.k e.j e.row ∧
      ∀ i j k, j < nChs → k < nPols →
        (i < e.row ∨ (i = e.row ∧ (j < e.j ∨ (j = e.j ∧ k < e.k)))) →
        st k j i = data k j i := by
  unfold compare_data_values at h
  cases hfd : firstDiff (fun p => st p.2.2 p.2.1 p.1)
      (fun p => data p.2.2 p.2.1 p.1) (data_positions nRows nChs nPols) with
  | none =>
    rw [hfd] at h
    cases h
  | some p =>
    rw [hfd] at h
    obtain rfl : (⟨p.1, p.2.1, p.2.2, st p.2.2 p.2.1 p.1,
        data p.2.2 p.2.1 p.1⟩ : DataMismatch) = e := by
      injection h
    obtain ⟨hne, _⟩ := firstDiff_eq_some hfd
    have hp := (mem_data_positions nRows nChs nPols p).mp (firstDiff_mem hfd)
    refine ⟨hp.1, hp.2.1, hp.2.2, hne, rfl, rfl, ?_⟩
    intro i j k hj hk hlt
    have hmem : (i, j, k) ∈ data_positions nRows nChs nPols := by
      refine (mem_data_positions nRows nChs nPols (i, j, k)).mpr ⟨?_, hj, hk⟩
      rcases hlt with h1 | ⟨h1, _⟩
      · exact Nat.lt_trans h1 hp.1
      · exact h1 ▸ hp.1
    exact firstDiff_before dataPosLt (pairwise_data_positions nRows nChs nPols)
      (fun a b h1 h2 => by
        simp only [dataPosLt] at h1 h2
        omega)
      (fun a h1 => by
        simp only [dataPosLt] at h1
        omega)
      hfd (i, j, k) hmem hlt

/-- Errors of compare_uvw_col beyond a value mismatch: the whole-column
shape check (uvws.shape() against getColumn's (3, nRows), main.cpp:429-433)
and the per-row check of the cell shape against the removeDegenerate'd
reference slice (main.cpp:443-447). casacore aborts either way when the two
IPositions differ (comparing different-length IPositions itself throws);
both are modelled as the corresponding error value. -/
inductive UvwCmpError
  | shape (ref col : Shape)
  | rowShape (row : Nat) (actual expected : Shape)
  | value (e : UvwMismatch)
deriving DecidableEq

/-- Errors of compare_data_col beyond a value mismatch: the whole-column
shape check (main.cpp:469-473) and the per-row check of the fixed cell
shape (nPols, nChs) against the removeDegenerate'd slice of the reference
(main.cpp:480-487), which loses axes when nPols = 1 or nChs = 1. -/
inductive DataCmpError
  | shape (ref col : Shape)
  | rowShape (row : Nat) (actual expected : Shape)
  | value (e : DataMismatch)
deriving DecidableEq

/-- compare_uvw_col: the whole-column shape check, then per row the cell
shape check and the value loop. The actual cell shape is always [3] (the
fixed column shape) and the expected slice shape removeDegenerate [3, 1];
neither depends on the row, so the per-row check is hoisted out of the loop:
its first failure would be at row 0, before any value comparison. -/
def compare_uvw_col (nRows : Nat) (uvwShape : Shape) (st uvws : UvwArr) :
    Except UvwCmpError Unit :=
  if uvwShape ≠ [3, nRows] then .error (.shape uvwShape [3, nRows])
  else if 0 < nRows ∧ removeDegenerate [3, 1] ≠ [3] then
    .error (.rowShape 0 [3] (removeDegenerate [3, 1]))
  else (compare_uvw_values nRows st uvws).mapError .value

/-- compare_data_col: the whole-column shape check, then per row the cell
shape check and the value loops. The actual cell shape is always
[nPols, nChs] and the expected slice shape removeDegenerate [nPols, nChs, 1];
neither depends on the row, so the per-row check is hoisted: its first
failure is at row 0, before any value comparison. -/
def compare_data_col (nRows nChs nPols : Nat) (dataShape : Shape)
    (st data : DataArr) : Except DataCmpError Unit :=
  if dataShape ≠ [nPols, nChs, nRows] then
    .error (.shape dataShape [nPols, nChs, nRows])
  else if 0 < nRows ∧ removeDegenerate [nPols, nChs, 1] ≠ [nPols, nChs] then
    .error (.rowShape 0 [nPols, nChs] (removeDegenerate [nPols, nChs, 1]))
  else (compare_data_values nRows nChs nPols st data).mapError .value

theorem mapError_eq_ok {ε ε' α : Type} (f : ε → ε') (x : Except ε α) (a : α) :
    x.mapError f = .ok a ↔ x = .ok a := by
  cases x <;> simp [Except.mapError]

theorem mapError_eq_error {ε ε' α : Type} (f : ε → ε') (x : Except ε α)
    (e' : ε') : x.mapError f = .error e' ↔ ∃ e, x = .error e ∧ e' = f e := by
  cases x <;> simp [Except.mapError, eq_comm]

theorem compare_uvw_col_eq_values (nRows : Nat) (st uvws : UvwArr) :
    compare_uvw_col nRows [3, nRows] st uvws =
      (compare_uvw_values nRows st uvws).mapError .value := by
  have h31 : removeDegenerate [3, 1] = [3] := rfl
  simp [compare_uvw_col, h31]

theorem compare_data_col_eq_values (nRows nChs nPols : Nat) (hP : nPols ≠ 1)
    (hC : nChs ≠ 1) (st data : DataArr) :
    compare_data_col nRows nChs nPols [nPols, nChs, nRows] st data =
      (compare_data_values nRows nChs nPols st data).mapError .value := by
  simp [compare_data_col, removeDegenerate_data_cell nPols nChs hP hC]

/-- The column targeted by one store put call. -/
inductive Field
  | TIME
  | UVW
  | DATA
deriving DecidableEq

/-- The errors main.cpp can throw after argument parsing, as structured
values: the fixed-message runtime_errors, casacore's ArrayError from a
Slicer whose axis count differs from the sliced array's dimensionality
(tagged with the column being filled), and the comparison errors (shape
checks and value mismatches). -/
inductive RunError
  | streamValidate
  | rowwiseColumn
  | sliceThrow (f : Field) (e : SliceError)
  | timeMismatch (e : TimeMismatch)
  | uvwError (e : UvwCmpError)
  | dataError (e : DataCmpError)
deriving DecidableEq

/-- Observable store activity of one run: table creation (which removes and
recreates the store directory), one put call covering rows [lo, lo+len), a
completed comparison pass over a column, the PASS output line, and the
user/system/real timing report. -/
inductive Ev
  | tableCreated
  | write (f : Field) (lo len : Nat)
  | compared (f : Field)
  | pass
  | timing
deriving DecidableEq

/-- The put calls of fill_time_col, as events in loop order. -/
def fill_time_events (wm : WriteMode) (nT nB : Nat) : List Ev :=
  (fill_time_units wm nT nB).map fun u => .write .TIME u.1 u.2

/-- The put calls of a completed fill_uvw_col pass, in loop order. -/
def fill_uvw_events (wm : WriteMode) (nT nB : Nat) : List Ev :=
  (fill_uvw_units wm nT nB).map fun u => .write .UVW u.1 u.2

/-- The put calls of a completed fill_data_col pass, in loop order. -/
def fill_data_events (wm : WriteMode) (nT nB : Nat) : List Ev :=
  (fill_data_units wm nT nB).map fun u => .write .DATA u.1 u.2

/-- stream_time_col writes a junk payload over the same row ranges as
fill_time_col (CELL: per-row put of times[0]; CELLS: putColumnCells over each
chunk; COLUMN: putColumn). Payload contents are not modelled — streaming runs
are never validated. -/
def stream_time_events (wm : WriteMode) (nT nB : Nat) : List Ev :=
  (fill_time_units wm nT nB).map fun u => .write .TIME u.1 u.2

/-- stream_uvw_col: same row ranges as fill_uvw_col, junk payload. -/
def stream_uvw_events (wm : WriteMode) (nT nB : Nat) : List Ev :=
  (fill_uvw_units wm nT nB).map fun u => .write .UVW u.1 u.2

/-- stream_data_col: same row ranges as fill_data_col, junk payload. -/
def stream_data_events (wm : WriteMode) (nT nB : Nat) : List Ev :=
  (fill_data_units wm nT nB).map fun u => .write .DATA u.1 u.2

/-- fill_rowwise, store effect: writes TIME, UVW and DATA together, row by
row (CELL, main.cpp:361-369) or chunk by chunk (CELLS, main.cpp:371-379);
COLUMN mode throws "can't write rowwise in COLUMN mode" before touching the
store. In CELL and CELLS the per-iteration uvw Slicer has 2 axes and the
data Slicer 3, applied to arrays whose shapes come from synthesize_data:
when a CELL-mode removeDegenerate has reduced a dimensionality, the first
iteration throws ArrayError at that Slicer. -/
def fill_rowwise (wm : WriteMode) (nT nB : Nat) (uvwShape dataShape : Shape)
    (times : TimeArr) (uvws : UvwArr) (data : DataArr) (ts : TimeArr)
    (us : UvwArr) (ds : DataArr) :
    Except RunError (TimeArr × UvwArr × DataArr) :=
  match wm with
  | .COLUMN => .error .rowwiseColumn
  | .CELL =>
    if sliceFails .CELL nT nB uvwShape 2 then
      .error (.sliceThrow .UVW ⟨uvwShape, 2⟩)
    else if sliceFails .CELL nT nB dataShape 3 then
      .error (.sliceThrow .DATA ⟨dataShape, 3⟩)
    else .ok (((List.range (nT * nB)).map fun i => (i, 1)).foldl
      (fun s u => (writeTimeRows times u.1 u.2 s.1,
        writeUvwRows uvws u.1 u.2 s.2.1,
        writeDataRows data u.1 u.2 s.2.2)) (ts, us, ds))
  | .CELLS =>
    if sliceFails .CELLS nT nB uvwShape 2 then
      .error (.sliceThrow .UVW ⟨uvwShape, 2⟩)
    else if sliceFails .CELLS nT nB dataShape 3 then
      .error (.sliceThrow .DATA ⟨dataShape, 3⟩)
    else .ok (((List.range nT).map fun t => (t * nB, nB)).foldl
      (fun s u => (writeTimeRows times u.1 u.2 s.1,
        writeUvwRows uvws u.1 u.2 s.2.1,
        writeDataRows data u.1 u.2 s.2.2)) (ts, us, ds))

/-- The interleaved put calls of a completed fill_rowwise pass. -/
def fill_rowwise_events (wm : WriteMode) (nT nB : Nat) : List Ev :=
  match wm with
  | .CELL => (List.range (nT * nB)).flatMap fun i =>
      [.write .TIME i 1, .write .UVW i 1, .write .DATA i 1]
  | .CELLS => (List.range nT).flatMap fun t =>
      [.write .TIME (t * nB) nB, .write .UVW (t * nB) nB,
        .write .DATA (t * nB) nB]
  | .COLUMN => []

/-- fill_rowwise, put-call events plus the throw, if any, that cuts them
short. Within a CELL iteration the TIME put at row i precedes the uvw
Slicer, and the UVW put precedes the data Slicer, so a uvw-slice throw
leaves the row-0 TIME write done and a data-slice throw also the row-0 UVW
write; CELLS likewise with nBls-row chunks. COLUMN throws before any
write. -/
def fill_rowwise_trace (wm : WriteMode) (nT nB : Nat)
    (uvwShape dataShape : Shape) : List Ev × Option RunError :=
  match wm with
  | .COLUMN => ([], some .rowwiseColumn)
  | .CELL =>
    if sliceFails .CELL nT nB uvwShape 2 then
      ([.write .TIME 0 1], some (.sliceThrow .UVW ⟨uvwShape, 2⟩))
    else if sliceFails .CELL nT nB dataShape 3 then
      ([.write .TIME 0 1, .write .UVW 0 1],
        some (.sliceThrow .DATA ⟨dataShape, 3⟩))
    else (fill_rowwise_events .CELL nT nB, none)
  | .CELLS =>
    if sliceFails .CELLS nT nB uvwShape 2 then
      ([.write .TIME 0 nB], some (.sliceThrow .UVW ⟨uvwShape, 2⟩))
    else if sliceFails .CELLS nT nB dataShape 3 then
      ([.write .TIME 0 nB, .write .UVW 0 nB],
        some (.sliceThrow .DATA ⟨dataShape, 3⟩))
    else (fill_rowwise_events .CELLS nT nB, none)

/-- stream_rowwise: junk payloads over the same interleaved row ranges as
fill_rowwise (payload contents and their put shapes not modelled); COLUMN
mode throws the same error. -/
def stream_rowwise_trace (wm : WriteMode) (nT nB : Nat) :
    Except RunError (List Ev) :=
  match wm with
  | .CELL => .ok ((List.range (nT * nB)).flatMap fun i =>
      [.write .TIME i 1, .write .UVW i 1, .write .DATA i 1])
  | .CELLS => .ok ((List.range nT).flatMap fun t =>
      [.write .TIME (t * nB) nB, .write .UVW (t * nB) nB,
        .write .DATA (t * nB) nB])
  | .COLUMN => .error .rowwiseColumn

/-- The validate branch of main: fill the selected column(s) once, then
compare each against the reference; a `.compared f` event records a
comparison pass over f that ran to completion. uvwShape/dataShape are the
shapes of the synthesized reference arrays (degenerate-stripped under CELL
granularity, see synth_uvw_shape/synth_data_shape); they govern the fill
Slicers and the compare shape checks. A fill throw in a multi-column pass
keeps the writes of the columns already filled (each single-column fill
throws before its own first put). -/
def validate_run (a : Args) (uvwShape dataShape : Shape) (ts0 : TimeArr)
    (us0 : UvwArr) (ds0 : DataArr) (times : TimeArr) (uvws : UvwArr)
    (data : DataArr) : List Ev × Except RunError Unit :=
  let nT := a.nTimes.toNat
  let nB := a.nBls.toNat
  let nC := a.nChs.toNat
  let nP := a.nPols.toNat
  match a.tableType with
  | .TIME =>
    let st := fill_time_col a.writeMode nT nB times ts0
    match compare_time_col nT nB st times with
    | .ok _ => (fill_time_events a.writeMode nT nB ++ [.compared .TIME], .ok ())
    | .error e => (fill_time_events a.writeMode nT nB, .error (.timeMismatch e))
  | .UVW =>
    match fill_uvw_col a.writeMode nT nB uvwShape uvws us0 with
    | .error e => ([], .error (.sliceThrow .UVW e))
    | .ok su =>
      match compare_uvw_col (nT * nB) uvwShape su uvws with
      | .ok _ => (fill_uvw_events a.writeMode nT nB ++ [.compared .UVW], .ok ())
      | .error e => (fill_uvw_events a.writeMode nT nB, .error (.uvwError e))
  | .DATA =>
    match fill_data_col a.writeMode nT nB dataShape data ds0 with
    | .error e => ([], .error (.sliceThrow .DATA e))
    | .ok sd =>
      match compare_data_col (nT * nB) nC nP dataShape sd data with
      | .ok _ => (fill_data_events a.writeMode nT nB ++ [.compared .DATA], .ok ())
      | .error e => (fill_data_events a.writeMode nT nB, .error (.dataError e))
  | .COLUMNWISE =>
    let st := fill_time_col a.writeMode nT nB times ts0
    let te := fill_time_events a.writeMode nT nB
    match fill_uvw_col a.writeMode nT nB uvwShape uvws us0 with
    | .error e => (te, .error (.sliceThrow .UVW e))
    | .ok su =>
      match fill_data_col a.writeMode nT nB dataShape data ds0 with
      | .error e => (te ++ fill_uvw_events a.writeMode nT nB,
          .error (.sliceThrow .DATA e))
      | .ok sd =>
        let fe := te ++ fill_uvw_events a.writeMode nT nB ++
          fill_data_events a.writeMode nT nB
        match compare_time_col nT nB st times with
        | .error e => (fe, .error (.timeMismatch e))
        | .ok _ =>
          match compare_uvw_col (nT * nB) uvwShape su uvws with
          | .error e => (fe ++ [.compared .TIME], .error (.uvwError e))
          | .ok _ =>
            match compare_data_col (nT * nB) nC nP dataShape sd data with
            | .error e => (fe ++ [.compared .TIME, .compared .UVW],
                .error (.dataError e))
            | .ok _ => (fe ++ [.compared .TIME, .compared .UVW,
                .compared .DATA], .ok ())
  | .ROWWISE =>
    match fill_rowwise a.writeMode nT nB uvwShape dataShape times uvws data
        ts0 us0 ds0 with
    | .error e =>
      ((fill_rowwise_trace a.writeMode nT nB uvwShape dataShape).1, .error e)
    | .ok (st, su, sd) =>
      let fe := fill_rowwise_events a.writeMode nT nB
      match compare_time_col nT nB st times with
      | .error e => (fe, .error (.timeMismatch e))
      | .ok _ =>
        match compare_uvw_col (nT * nB) uvwShape su uvws with
        | .error e => (fe ++ [.compared .TIME], .error (.uvwError e))
        | .ok _ =>
          match compare_data_col (nT * nB) nC nP dataShape sd data with
          | .error e => (fe ++ [.compared .TIME, .compared .UVW],
              .error (.dataError e))
          | .ok _ => (fe ++ [.compared .TIME, .compared .UVW,
              .compared .DATA], .ok ())

/-- The store writes of one non-streaming iteration of the timed loop, plus
the throw that aborts it, if any: each single-column fill throws before its
own first put, so an aborted COLUMNWISE iteration keeps the events of the
columns already filled, and an aborted fill_rowwise keeps its partial
interleaved writes. -/
def fill_iter_trace (a : Args) (uvwShape dataShape : Shape) :
    List Ev × Option RunError :=
  let nT := a.nTimes.toNat
  let nB := a.nBls.toNat
  match a.tableType with
  | .TIME => (fill_time_events a.writeMode nT nB, none)
  | .UVW =>
    if sliceFails a.writeMode nT nB uvwShape 2 then
      ([], some (.sliceThrow .UVW ⟨uvwShape, 2⟩))
    else (fill_uvw_events a.writeMode nT nB, none)
  | .DATA =>
    if sliceFails a.writeMode nT nB dataShape 3 then
      ([], some (.sliceThrow .DATA ⟨dataShape, 3⟩))
    else (fill_data_events a.writeMode nT nB, none)
  | .COLUMNWISE =>
    if sliceFails a.writeMode nT nB uvwShape 2 then
      (fill_time_events a.writeMode nT nB,
        some (.sliceThrow .UVW ⟨uvwShape, 2⟩))
    else if sliceFails a.writeMode nT nB dataShape 3 then
      (fill_time_events a.writeMode nT nB ++ fill_uvw_events a.writeMode nT nB,
        some (.sliceThrow .DATA ⟨dataShape, 3⟩))
    else (fill_time_events a.writeMode nT nB ++
      fill_uvw_events a.writeMode nT nB ++
      fill_data_events a.writeMode nT nB, none)
  | .ROWWISE => fill_rowwise_trace a.writeMode nT nB uvwShape dataShape

/-- One iteration of the timed loop: the stream_* variant when -s was given,
else the fill_* variant. -/
def bench_iter (a : Args) (uvwShape dataShape : Shape) :
    List Ev × Option RunError :=
  let nT := a.nTimes.toNat
  let nB := a.nBls.toNat
  if a.stream then
    match a.tableType with
    | .TIME => (stream_time_events a.writeMode nT nB, none)
    | .UVW => (stream_uvw_events a.writeMode nT nB, none)
    | .DATA => (stream_data_events a.writeMode nT nB, none)
    | .COLUMNWISE => (stream_time_events a.writeMode nT nB ++
        stream_uvw_events a.writeMode nT nB ++
        stream_data_events a.writeMode nT nB, none)
    | .ROWWISE =>
      match stream_rowwise_trace a.writeMode nT nB with
      | .error e => ([], some e)
      | .ok evs => (evs, none)
  else fill_iter_trace a uvwShape dataShape

/-- The timed `while (i++ < args.nIters)` loop, running the per-iteration
fill n times; an exception thrown in an iteration aborts the loop, keeping
the writes the iteration completed. -/
def bench_loop (a : Args) (uvwShape dataShape : Shape) :
    Nat → List Ev × Except RunError Unit
  | 0 => ([], .ok ())
  | n + 1 =>
    match bench_iter a uvwShape dataShape with
    | (evs, some e) => (evs, .error e)
    | (evs, none) =>
      let r := bench_loop a uvwShape dataShape n
      (evs ++ r.1, r.2)

/-- main() after argument parsing: reject stream+validate, synthesize the
reference buffers (no store activity; under CELL granularity
removeDegenerate reduces the uvw and data shapes), create the table —
removing any existing store directory first, the `tableCreated` event —
then either run the single validation pass (printing PASS and returning 0
on success) or the timed loop (printing the timing report only when
nIters > 0, then returning 0). ts0/us0/ds0 stand for the fresh table's
undefined column contents; an uncaught C++ exception is `.error`. -/
def runMain (a : Args) (ts0 : TimeArr) (us0 : UvwArr) (ds0 : DataArr) :
    List Ev × Except RunError Int :=
  if a.stream ∧ a.validate then ([], .error .streamValidate)
  else
    let nRows := (a.nTimes * a.nBls).toNat
    let times := indgen
    let uvws := synth_uvws nRows (fun _ _ => 0)
    let data := synth_data a.nPols.toNat a.nChs.toNat nRows (fun _ _ _ => 0)
    let uvwShape := synth_uvw_shape a.writeMode nRows
    let dataShape :=
      synth_data_shape a.writeMode a.nPols.toNat a.nChs.toNat nRows
    if a.validate then
      match validate_run a uvwShape dataShape ts0 us0 ds0 times uvws data with
      | (evs, .ok _) => (.tableCreated :: (evs ++ [.pass]), .ok 0)
      | (evs, .error e) => (.tableCreated :: evs, .error e)
    else
      match bench_loop a uvwShape dataShape a.nIters.toNat with
      | (evs, .ok _) => (.tableCreated ::
          (evs ++ if 0 < a.nIters then [.timing] else []), .ok 0)
      | (evs, .error e) => (.tableCreated :: evs, .error e)

/-- Digit-accumulating core of C atoi: consume decimal digits, stop at the
first non-digit. -/
def digitsToNat : List Char → Nat → Nat
  | c :: cs, acc =>
    if c.isDigit then digitsToNat cs (acc * 10 + (c.toNat - 48)) else acc
  | [], acc => acc

/-- C atoi, used for the -i -T -B -C -P values: skip leading whitespace, an
optional sign, then decimal digits (0 when there are none). -/
def atoi (s : List Char) : Int :=
  let cs := s.dropWhile fun c =>
    c == ' ' || c == '\t' || c == '\n' || c == '\r'
  match cs with
  | '-' :: rest => -((digitsToNat rest 0 : Nat) : Int)
  | '+' :: rest => ((digitsToNat rest 0 : Nat) : Int)
  | _ => ((digitsToNat cs 0 : Nat) : Int)

/-- Argument-parsing failures: main prints usage and throws
("missing ... argument", "unknown option: ..."), or the fromName helpers
throw ("unknown table type", "unknown write mode"). -/
inductive ParseError
  | missingArgument (opt : Char)
  | unknownOption (tok : List Char)
  | unknownTableType (name : List Char)
  | unknownWriteMode (name : List Char)
deriving DecidableEq

/-- Outcome of argument parsing: -h prints usage and returns 0 immediately;
otherwise the accumulated Args. -/
inductive ParseOut
  | help
  | args (a : Args)
deriving DecidableEq

/-- tableTypeFromName: upper-cases the name and looks it up among
tableTypeNames, throwing on an unknown name. -/
def tableTypeFromName (s : List Char) : Except ParseError TableType :=
  let u := s.map Char.toUpper
  if u = "TIME".data then .ok .TIME
  else if u = "UVW".data then .ok .UVW
  else if u = "DATA".data then .ok .DATA
  else if u = "COLUMNWISE".data then .ok .COLUMNWISE
  else if u = "ROWWISE".data then .ok .ROWWISE
  else .error (.unknownTableType u)

/-- writeModeFromName: upper-cases the name and looks it up among
writeModeNames, throwing on an unknown name. -/
def writeModeFromName (s : List Char) : Except ParseError WriteMode :=
  let u := s.map Char.toUpper
  if u = "CELL".data then .ok .CELL
  else if u = "CELLS".data then .ok .CELLS
  else if u = "COLUMN".data then .ok .COLUMN
  else .error (.unknownWriteMode u)

/-- Outcome of examining one argv token: a final result (help, or a fatal
parse error), or continue with updated Args, recording whether the following
token was consumed as an option value. -/
inductive StepOut
  | stop (r : Except ParseError ParseOut)
  | next (a : Args) (tookValue : Bool)

/-- One iteration of the argv loop of main, on a C-string token (list of
chars): a token whose first char is not '-' has no effect; otherwise the
switch is on the token's second char (the NUL terminator when the token is
just "-"), and the options -i -t -w -T -B -C -P consume the following token
as their value (missing-value and unknown-option cases throw). -/
def parseStep (a : Args) (t : List Char) (rest : List (List Char)) : StepOut :=
  match t with
  | '-' :: cs =>
    let c := cs.headD (Char.ofNat 0)
    if c = 'h' then .stop (.ok .help)
    else if c = 'v' then .next { a with verbosity := a.verbosity + 1 } false
    else if c = 'q' then .next { a with verbosity := a.verbosity - 1 } false
    else if c = 's' then .next { a with stream := true } false
    else if c = 'V' then .next { a with validate := true } false
    else if c = 'i' then
      match rest with
      | [] => .stop (.error (.missingArgument 'i'))
      | v :: _ => .next { a with nIters := atoi v } true
    else if c = 't' then
      match rest with
      | [] => .stop (.error (.missingArgument 't'))
      | v :: _ =>
        match tableTypeFromName v with
        | .ok tt => .next { a with tableType := tt } true
        | .error e => .stop (.error e)
    else if c = 'w' then
      match rest with
      | [] => .stop (.error (.missingArgument 'w'))
      | v :: _ =>
        match writeModeFromName v with
        | .ok wm => .next { a with writeMode := wm } true
        | .error e => .stop (.error e)
    else if c = 'T' then
      match rest with
      | [] => .stop (.error (.missingArgument 'T'))
      | v :: _ => .next { a with nTimes := atoi v } true
    else if c = 'B' then
      match rest with
      | [] => .stop (.error (.missingArgument 'B'))
      | v :: _ => .next { a with nBls := atoi v } true
    else if c = 'C' then
      match rest with
      | [] => .stop (.error (.missingArgument 'C'))
      | v :: _ => .next { a with nChs := atoi v } true
    else if c = 'P' then
      match rest with
      | [] => .stop (.error (.missingArgument 'P'))
      | v :: _ => .next { a with nPols := atoi v } true
    else .stop (.error (.unknownOption t))
  | _ => .next a false

/-- The argv loop, driven by a fuel counter: each iteration consumes at
least one token and one unit of fuel, so with fuel = the token count (argc,
as parseLoop supplies) the zero-fuel base case is unreachable and the loop
behaviour matches the C++ `while (++argi < argc)` exactly. -/
def parseLoopF : Nat → Args → List (List Char) → Except ParseError ParseOut
  | 0, a, _ => .ok (.args a)
  | _ + 1, a, [] => .ok (.args a)
  | fuel + 1, a, t :: rest =>
    match parseStep a t rest with
    | .stop r => r
    | .next a2 tookValue =>
        parseLoopF fuel a2 (if tookValue then rest.tail else rest)

/-- The argv loop of main over the whole token list. -/
def parseLoop (a : Args) (l : List (List Char)) : Except ParseError ParseOut :=
  parseLoopF l.length a l

theorem compare_fill_time_ok (wm : WriteMode) (nT nB : Nat)
    (times st0 : TimeArr) :
    compare_time_col nT nB (fill_time_col wm nT nB times st0) times = .ok () :=
  (compare_time_col_ok_iff nT nB _ times).mpr fun i hi =>
    fill_time_col_eq wm nT nB times st0 i hi

theorem compare_fill_uvw_ok (wm : WriteMode) (nT nB : Nat)
    (uvws st0 : UvwArr) :
    compare_uvw_values (nT * nB) (fill_uvw_writes wm nT nB uvws st0) uvws =
      .ok () :=
  (compare_uvw_values_ok_iff (nT * nB) _ uvws).mpr fun i hi j hj =>
    fill_uvw_writes_eq wm nT nB uvws st0 j i hi

theorem compare_fill_data_ok (wm : WriteMode) (nT nB nC nP : Nat)
    (data st0 : DataArr) :
    compare_data_values (nT * nB) nC nP (fill_data_writes wm nT nB data st0)
      data = .ok () :=
  (compare_data_values_ok_iff (nT * nB) nC nP _ data).mpr fun i hi j hj k hk =>
    fill_data_writes_eq wm nT nB data st0 k j i hi

theorem foldl_write3_units (rs : List (Nat × Nat)) (times : TimeArr)
    (uvws : UvwArr) (data : DataArr) (ts : TimeArr) (us : UvwArr)
    (ds : DataArr) :
    rs.foldl (fun s u => (writeTimeRows times u.1 u.2 s.1,
        writeUvwRows uvws u.1 u.2 s.2.1, writeDataRows data u.1 u.2 s.2.2))
      (ts, us, ds) =
      (rs.foldl (fun s u => writeTimeRows times u.1 u.2 s) ts,
       rs.foldl (fun s u => writeUvwRows uvws u.1 u.2 s) us,
       rs.foldl (fun s u => writeDataRows data u.1 u.2 s) ds) := by
  induction rs generalizing ts us ds with
  | nil => rfl
  | cons u rs ih =>
    simp only [List.foldl_cons]
    exact ih _ _ _

theorem fill_rowwise_ok (wm : WriteMode) (hwm : wm ≠ .COLUMN) (nT nB : Nat)
    (uvwShape dataShape : Shape) (h2 : uvwShape.length = 2)
    (h3 : dataShape.length = 3) (times : TimeArr) (uvws : UvwArr)
    (data : DataArr) (ts : TimeArr) (us : UvwArr) (ds : DataArr) :
    fill_rowwise wm nT nB uvwShape dataShape times uvws data ts us ds =
      .ok (fill_time_col wm nT nB times ts, fill_uvw_writes wm nT nB uvws us,
        fill_data_writes wm nT nB data ds) := by
  cases wm with
  | COLUMN => exact (hwm rfl).elim
  | CELL =>
    simp only [fill_rowwise]
    rw [if_neg (by simp [sliceFails, h2]), if_neg (by simp [sliceFails, h3]),
      foldl_write3_units]
    rfl
  | CELLS =>
    simp only [fill_rowwise]
    rw [if_neg (by simp [sliceFails, h2]), if_neg (by simp [sliceFails, h3]),
      foldl_write3_units]
    rfl

theorem fill_rowwise_trace_ok (wm : WriteMode) (hwm : wm ≠ .COLUMN)
    (nT nB : Nat) (uvwShape dataShape : Shape) (h2 : uvwShape.length = 2)
    (h3 : dataShape.length = 3) :
    fill_rowwise_trace wm nT nB uvwShape dataShape =
      (fill_rowwise_events wm nT nB, none) := by
  cases wm with
  | COLUMN => exact (hwm rfl).elim
  | CELL =>
    simp only [fill_rowwise_trace]
    rw [if_neg (by simp [sliceFails, h2]), if_neg (by simp [sliceFails, h3])]
  | CELLS =>
    simp only [fill_rowwise_trace]
    rw [if_neg (by simp [sliceFails, h2]), if_neg (by simp [sliceFails, h3])]

/-- The fill events of a completed validate-branch fill pass per tableType
(statement-level summary of which put calls it performs). -/
def validate_fill_trace (a : Args) : List Ev :=
  match a.tableType with
  | .TIME => fill_time_events a.writeMode a.nTimes.toNat a.nBls.toNat
  | .UVW => fill_uvw_events a.writeMode a.nTimes.toNat a.nBls.toNat
  | .DATA => fill_data_events a.writeMode a.nTimes.toNat a.nBls.toNat
  | .COLUMNWISE =>
      fill_time_events a.writeMode a.nTimes.toNat a.nBls.toNat ++
      fill_uvw_events a.writeMode a.nTimes.toNat a.nBls.toNat ++
      fill_data_events a.writeMode a.nTimes.toNat a.nBls.toNat
  | .ROWWISE => fill_rowwise_events a.writeMode a.nTimes.toNat a.nBls.toNat

/-- The comparison passes of the validate branch per tableType. -/
def compared_trace : TableType → List Ev
  | .TIME => [.compared .TIME]
  | .UVW => [.compared .UVW]
  | .DATA => [.compared .DATA]
  | .COLUMNWISE => [.compared .TIME, .compared .UVW, .compared .DATA]
  | .ROWWISE => [.compared .TIME, .compared .UVW, .compared .DATA]

/-- Configurations (with at least one row) whose single validation pass runs
to completion. TIME always passes. A pass touching UVW needs, under CELL
granularity, at least 2 rows (else synthesize_data's removeDegenerate
leaves a 1-axis uvw array and the fill's 2-axis Slicer throws). A pass
touching DATA needs nPols ≥ 2 and nChs ≥ 2 (else compare_data_col's per-row
check of the fixed cell shape against the degenerate-stripped reference
slice fails at row 0) and, under CELL, at least 2 rows. ROWWISE additionally
excludes COLUMN granularity. -/
def validate_config_ok (a : Args) : Prop :=
  match a.tableType with
  | .TIME => True
  | .UVW => a.writeMode = .CELL → 2 ≤ (a.nTimes * a.nBls).toNat
  | .DATA => 2 ≤ a.nPols.toNat ∧ 2 ≤ a.nChs.toNat ∧
      (a.writeMode = .CELL → 2 ≤ (a.nTimes * a.nBls).toNat)
  | .COLUMNWISE => 2 ≤ a.nPols.toNat ∧ 2 ≤ a.nChs.toNat ∧
      (a.writeMode = .CELL → 2 ≤ (a.nTimes * a.nBls).toNat)
  | .ROWWISE => a.writeMode ≠ .COLUMN ∧ 2 ≤ a.nPols.toNat ∧
      2 ≤ a.nChs.toNat ∧
      (a.writeMode = .CELL → 2 ≤ (a.nTimes * a.nBls).toNat)

theorem validate_run_ok (a : Args) (ts0 : TimeArr) (us0 : UvwArr)
    (ds0 : DataArr) (times : TimeArr) (uvws : UvwArr) (data : DataArr)
    (hT : 1 ≤ a.nTimes) (hB : 1 ≤ a.nBls) (hok : validate_config_ok a) :
    validate_run a (synth_uvw_shape a.writeMode (a.nTimes * a.nBls).toNat)
      (synth_data_shape a.writeMode a.nPols.toNat a.nChs.toNat
        (a.nTimes * a.nBls).toNat) ts0 us0 ds0 times uvws data =
      (validate_fill_trace a ++ compared_trace a.tableType, .ok ()) := by
  have hRB : (a.nTimes * a.nBls).toNat = a.nTimes.toNat * a.nBls.toNat :=
    toNat_mul_pos a.nTimes a.nBls hT hB
  rw [hRB]
  cases ht : a.tableType with
  | TIME =>
    simp only [validate_run, ht, compare_fill_time_ok, validate_fill_trace,
      compared_trace]
  | UVW =>
    simp only [validate_config_ok, ht] at hok
    rw [hRB] at hok
    have hu : synth_uvw_shape a.writeMode (a.nTimes.toNat * a.nBls.toNat) =
        [3, a.nTimes.toNat * a.nBls.toNat] :=
      synth_uvw_shape_eq _ _ fun h => Nat.ne_of_gt (hok h)
    simp only [validate_run, ht, hu,
      fill_uvw_col_ok a.writeMode a.nTimes.toNat a.nBls.toNat
        [3, a.nTimes.toNat * a.nBls.toNat] uvws us0 rfl,
      compare_uvw_col_eq_values, compare_fill_uvw_ok, Except.mapError,
      validate_fill_trace, compared_trace]
  | DATA =>
    simp only [validate_config_ok, ht] at hok
    rw [hRB] at hok
    obtain ⟨hP, hC, hcell⟩ := hok
    have hd : synth_data_shape a.writeMode a.nPols.toNat a.nChs.toNat
        (a.nTimes.toNat * a.nBls.toNat) =
        [a.nPols.toNat, a.nChs.toNat, a.nTimes.toNat * a.nBls.toNat] :=
      synth_data_shape_eq _ _ _ _ (Nat.ne_of_gt hP) (Nat.ne_of_gt hC)
        fun h => Nat.ne_of_gt (hcell h)
    simp only [validate_run, ht, hd,
      fill_data_col_ok a.writeMode a.nTimes.toNat a.nBls.toNat
        [a.nPols.toNat, a.nChs.toNat, a.nTimes.toNat * a.nBls.toNat]
        data ds0 rfl,
      compare_data_col_eq_values (a.nTimes.toNat * a.nBls.toNat) a.nChs.toNat
        a.nPols.toNat (Nat.ne_of_gt hP) (Nat.ne_of_gt hC),
      compare_fill_data_ok, Except.mapError, validate_fill_trace,
      compared_trace]
  | COLUMNWISE =>
    simp only [validate_config_ok, ht] at hok
    rw [hRB] at hok
    obtain ⟨hP, hC, hcell⟩ := hok
    have hu : synth_uvw_shape a.writeMode (a.nTimes.toNat * a.nBls.toNat) =
        [3, a.nTimes.toNat * a.nBls.toNat] :=
      synth_uvw_shape_eq _ _ fun h => Nat.ne_of_gt (hcell h)
    have hd : synth_data_shape a.writeMode a.nPols.toNat a.nChs.toNat
        (a.nTimes.toNat * a.nBls.toNat) =
        [a.nPols.toNat, a.nChs.toNat, a.nTimes.toNat * a.nBls.toNat] :=
      synth_data_shape_eq _ _ _ _ (Nat.ne_of_gt hP) (Nat.ne_of_gt hC)
        fun h => Nat.ne_of_gt (hcell h)
    simp only [validate_run, ht, hu, hd,
      fill_uvw_col_ok a.writeMode a.nTimes.toNat a.nBls.toNat
        [3, a.nTimes.toNat * a.nBls.toNat] uvws us0 rfl,
      fill_data_col_ok a.writeMode a.nTimes.toNat a.nBls.toNat
        [a.nPols.toNat, a.nChs.toNat, a.nTimes.toNat * a.nBls.toNat]
        data ds0 rfl,
      compare_uvw_col_eq_values,
      compare_data_col_eq_values (a.nTimes.toNat * a.nBls.toNat) a.nChs.toNat
        a.nPols.toNat (Nat.ne_of_gt hP) (Nat.ne_of_gt hC),
      compare_fill_time_ok, compare_fill_uvw_ok, compare_fill_data_ok,
      Except.mapError, validate_fill_trace, compared_trace]
  | ROWWISE =>
    simp only [validate_config_ok, ht] at hok
    rw [hRB] at hok
    obtain ⟨hwm, hP, hC, hcell⟩ := hok
    have hu : synth_uvw_shape a.writeMode (a.nTimes.toNat * a.nBls.toNat) =
        [3, a.nTimes.toNat * a.nBls.toNat] :=
      synth_uvw_shape_eq _ _ fun h => Nat.ne_of_gt (hcell h)
    have hd : synth_data_shape a.writeMode a.nPols.toNat a.nChs.toNat
        (a.nTimes.toNat * a.nBls.toNat) =
        [a.nPols.toNat, a.nChs.toNat, a.nTimes.toNat * a.nBls.toNat] :=
      synth_data_shape_eq _ _ _ _ (Nat.ne_of_gt hP) (Nat.ne_of_gt hC)
        fun h => Nat.ne_of_gt (hcell h)
    simp only [validate_run, ht, hu, hd,
      fill_rowwise_ok a.writeMode hwm a.nTimes.toNat a.nBls.toNat
        [3, a.nTimes.toNat * a.nBls.toNat]
        [a.nPols.toNat, a.nChs.toNat, a.nTimes.toNat * a.nBls.toNat]
        rfl rfl times uvws data ts0 us0 ds0,
      compare_uvw_col_eq_values,
      compare_data_col_eq_values (a.nTimes.toNat * a.nBls.toNat) a.nChs.toNat
        a.nPols.toNat (Nat.ne_of_gt hP) (Nat.ne_of_gt hC),
      compare_fill_time_ok, compare_fill_uvw_ok, compare_fill_data_ok,
      Except.mapError, validate_fill_trace, compared_trace]

theorem runMain_validate_eq (a : Args) (ts0 : TimeArr) (us0 : UvwArr)
    (ds0 : DataArr) (hv : a.validate = true) (n : Int) :
    runMain { a with nIters := n } ts0 us0 ds0 = runMain a ts0 us0 ds0 := by
  obtain ⟨i1, t1, b1, c1, p1, v1, w1, tt1, val1, str1⟩ := a
  cases hv
  cases str1
  · rfl
  · rfl

/-- Zero-initialized stand-in for fresh TIME column contents. -/
def zeroTime : TimeArr := fun _ => 0

/-- Zero-initialized stand-in for fresh UVW column contents. -/
def zeroUvw : UvwArr := fun _ _ => 0

/-- Zero-initialized stand-in for fresh DATA column contents. -/
def zeroData : DataArr := fun _ _ _ => 0

/-- Modelled from the spec: the synthesized DATA value at (row, pol, ch) as
the spec's formula states it, `(real = ch, imag = pol + (pol+1)*0.1)` —
for comparison against the source's synthesize_data. -/
def spec_data_value (pol ch : Nat) : ℚ × ℚ :=
  ((ch : ℚ), (pol : ℚ) + ((pol : ℚ) + 1) * (1 / 10))

/-- C1 counterexample: for the valid shape T=1, B=1, C=2, P=1 at row 0,
polarization 0, channel 1, the code synthesizes Complex(i, j + (k+1)*0.1) =
(0, 11/10) — the real part is the row index, the imaginary part involves the
channel index — not the claimed (real = ch, imag = pol + (pol+1)*0.1) =
(1, 1/10). -/
theorem C1_counterexample :
    synth_data 1 2 1 zeroData 0 1 0 ≠ spec_data_value 0 1 := by
  rw [synth_data_apply]
  norm_num [spec_data_value, Prod.ext_iff]

/-- C1 (amended): for every valid shape, the synthesized DATA value at
(row i, channel j, polarization k) is the complex number with real part the
ROW index i and imaginary part j + (k+1)*0.1 (channel plus encoded
polarization); when the polarization count is at most 10, every
(row, channel, polarization) triple maps to a distinct value. -/
theorem C1_data_synthesis (P C R : Nat) (a0 : DataArr) :
    (∀ i < R, ∀ j < C, ∀ k < P,
      synth_data P C R a0 k j i =
        ((i : ℚ), (j : ℚ) + ((k : ℚ) + 1) * (1 / 10)))
    ∧ (P ≤ 10 → ∀ i < R, ∀ j < C, ∀ k < P, ∀ i' < R, ∀ j' < C, ∀ k' < P,
      synth_data P C R a0 k j i = synth_data P C R a0 k' j' i' →
      i = i' ∧ j = j' ∧ k = k') := by
  constructor
  · intro i hi j hj k hk
    rw [synth_data_apply, if_pos ⟨hk, hj, hi⟩]
  · intro hP i hi j hj k hk i' hi' j' hj' k' hk' heq
    rw [synth_data_apply, synth_data_apply, if_pos ⟨hk, hj, hi⟩,
      if_pos ⟨hk', hj', hi'⟩, Prod.mk.injEq] at heq
    have hii : i = i' := Nat.cast_injective heq.1
    have h10 : (10 * (j : ℚ) + (k : ℚ)) = 10 * (j' : ℚ) + (k' : ℚ) := by
      have h2 := heq.2
      linarith
    have hn : 10 * j + k = 10 * j' + k' := by exact_mod_cast h10
    refine ⟨hii, ?_, ?_⟩ <;> omega

/-- C1 witness: the amended theorem at shape P=1, C=2, R=1, row 0, channel 1,
polarization 0 gives the value (0, 11/10). -/
theorem C1_witness :
    synth_data 1 2 1 zeroData 0 1 0 = ((0 : ℚ), (1 : ℚ) + (0 + 1) * (1 / 10)) := by
  have h := (C1_data_synthesis 1 2 1 zeroData).1 0 (by norm_num) 1 (by norm_num)
    0 (by norm_num)
  simpa using h

/-- Concrete configuration -t rowwise -w column -V with shape 1×1×1×1. -/
def argsRowwiseColumn : Args :=
  { nIters := 100, nTimes := 1, nBls := 1, nChs := 1, nPols := 1,
    verbosity := 0, writeMode := .COLUMN, tableType := .ROWWISE,
    validate := true, stream := false }

/-- C2 counterexample: with ROWWISE selection and COLUMN granularity the run
does fail with the configuration error and performs no column write, but the
store IS mutated first: the table-creation event (which removes and recreates
the store directory) precedes the error, contradicting "no table creation or
column write happens first". -/
theorem C2_counterexample :
    runMain argsRowwiseColumn zeroTime zeroUvw zeroData =
      ([.tableCreated], .error .rowwiseColumn) ∧
    Ev.tableCreated ∈ (runMain argsRowwiseColumn zeroTime zeroUvw zeroData).1 := by
  have h : runMain argsRowwiseColumn zeroTime zeroUvw zeroData =
      ([.tableCreated], .error .rowwiseColumn) := rfl
  exact ⟨h, by rw [h]; exact List.mem_singleton.mpr rfl⟩

/-- C2 (amended): COLUMN granularity together with ROWWISE selection makes
the run fail with the "can't write rowwise in COLUMN mode" error on the first
fill attempt (in validate mode, or in benchmark mode with at least one
iteration), and no store write is ever attempted — but the table is created
(and the store directory removed and recreated) before the error is raised. -/
theorem C2_rowwise_column_rejected (a : Args) (ts0 : TimeArr) (us0 : UvwArr)
    (ds0 : DataArr) (ht : a.tableType = .ROWWISE) (hw : a.writeMode = .COLUMN)
    (hrun : (a.validate = true ∧ a.stream = false) ∨
      (a.validate = false ∧ 1 ≤ a.nIters)) :
    runMain a ts0 us0 ds0 = ([.tableCreated], .error .rowwiseColumn) := by
  rcases hrun with ⟨hv, hs⟩ | ⟨hv, hn⟩
  · simp [runMain, hv, hs, validate_run, ht, hw, fill_rowwise,
      fill_rowwise_trace]
  · obtain ⟨k, hk⟩ : ∃ k, a.nIters.toNat = k + 1 := ⟨a.nIters.toNat - 1, by omega⟩
    cases hstr : a.stream <;>
      simp [runMain, hv, hk, bench_loop, bench_iter, fill_iter_trace, ht, hw,
        hstr, stream_rowwise_trace, fill_rowwise_trace]

/-- C2 witness: the amended theorem at the concrete rowwise+column
configuration (benchmark mode, one iteration). -/
theorem C2_witness :
    runMain { argsRowwiseColumn with validate := false, nIters := 1 }
      zeroTime zeroUvw zeroData = ([.tableCreated], .error .rowwiseColumn) :=
  C2_rowwise_column_rejected _ zeroTime zeroUvw zeroData rfl rfl
    (Or.inr ⟨rfl, by norm_num⟩)

/-- Concrete benchmark configuration with 0 iterations, shape 1×1×1×1. -/
def argsZeroIters : Args :=
  { nIters := 0, nTimes := 1, nBls := 1, nChs := 1, nPols := 1,
    verbosity := 0, writeMode := .CELL, tableType := .COLUMNWISE,
    validate := false, stream := false }

/-- C3 counterexample: benchmark mode with 0 iterations performs no store
writes and exits 0, but NO timing report is produced — main prints the
user/system/real report only when nIters > 0 — contradicting the claim that
a valid near-zero timing result is still reported. -/
theorem C3_counterexample :
    runMain argsZeroIters zeroTime zeroUvw zeroData = ([.tableCreated], .ok 0) ∧
    Ev.timing ∉ (runMain argsZeroIters zeroTime zeroUvw zeroData).1 := by
  have h : runMain argsZeroIters zeroTime zeroUvw zeroData =
      ([.tableCreated], .ok 0) := rfl
  exact ⟨h, by rw [h]; decide⟩

/-- C3 (amended): in benchmark mode with an iteration count of 0 the program
performs zero store writes and exits 0 without error, but it reports no
timing result: the timing report is only printed when the iteration count is
positive. -/
theorem C3_zero_iterations (a : Args) (ts0 : TimeArr) (us0 : UvwArr)
    (ds0 : DataArr) (hv : a.validate = false) (hn : a.nIters = 0) :
    runMain a ts0 us0 ds0 = ([.tableCreated], .ok 0) := by
  simp [runMain, hv, hn, bench_loop]

/-- C3 witness: the amended theorem at the concrete 0-iteration
configuration. -/
theorem C3_witness :
    runMain argsZeroIters zeroTime zeroUvw zeroData = ([.tableCreated], .ok 0) :=
  C3_zero_iterations argsZeroIters zeroTime zeroUvw zeroData rfl rfl

/-- Concrete configuration -t data -V with shape T=1, B=1, C=1, P=1 and the
given write granularity. -/
def argsData111 (wm : WriteMode) : Args :=
  { nIters := 100, nTimes := 1, nBls := 1, nChs := 1, nPols := 1,
    verbosity := 0, writeMode := wm, tableType := .DATA,
    validate := true, stream := false }

/-- C4: the claimed behaviour — at shape T=1, B=1, C=1, P=1 the single DATA
value (0, 0.1) round-trips and the fill-then-compare pass succeeds — fails
in the code for every write granularity. CELL: synthesize_data's
removeDegenerate collapses the data array to shape (1), and fill_data_col's
3-axis Slicer throws ArrayError before any write. CELLS and COLUMN: the fill
succeeds and writes the synthesized (0, 0.1), but compare_data_col's
per-row shape check aborts at row 0, comparing the fixed cell shape (1, 1)
against the degenerate-stripped reference slice (1). No granularity reaches
PASS. -/
theorem C4_unit_shape_fails :
    (runMain (argsData111 .CELL) zeroTime zeroUvw zeroData =
      ([.tableCreated], .error (.sliceThrow .DATA ⟨[1], 3⟩)))
    ∧ (runMain (argsData111 .CELLS) zeroTime zeroUvw zeroData =
      ([.tableCreated, .write .DATA 0 1],
        .error (.dataError (.rowShape 0 [1, 1] [1]))))
    ∧ (runMain (argsData111 .COLUMN) zeroTime zeroUvw zeroData =
      ([.tableCreated, .write .DATA 0 1],
        .error (.dataError (.rowShape 0 [1, 1] [1]))))
    ∧ ∀ wm, Ev.pass ∉ (runMain (argsData111 wm) zeroTime zeroUvw zeroData).1 := by
  refine ⟨rfl, rfl, rfl, ?_⟩
  intro wm
  cases wm <;> decide

/-- C5 counterexample: under CELL granularity at the degenerate shape
T=1, B=1, C=1, P=1 the UVW and DATA fills perform no writes at all — the
synthesized arrays have been degenerate-stripped to shapes (3) and (1), and
the fills' 2-axis/3-axis Slicers throw ArrayError on the first iteration,
before any put — so the claimed row tiling fails for them. -/
theorem C5_counterexample :
    fill_uvw_col .CELL 1 1 (synth_uvw_shape .CELL 1) zeroUvw zeroUvw =
      .error ⟨[3], 2⟩ ∧
    fill_data_col .CELL 1 1 (synth_data_shape .CELL 1 1 1) zeroData zeroData =
      .error ⟨[1], 3⟩ := ⟨rfl, rfl⟩

/-- C5 (amended): for every shape and granularity the TIME fill's write
units — [i, i+1) per row for CELL, [t*nBls, (t+1)*nBls) per time step for
CELLS, [0, rowCount) for COLUMN — flatten, in emission order, to exactly the
row list 0, 1, ..., rowCount-1 (no gaps, no overlaps); the UVW and DATA
fills satisfy the same tiling whenever their slicing succeeds (then the
returned column contents are exactly the folded write units), but a failed
slice performs no writes at all. -/
theorem C5_units_tile (wm : WriteMode) (nT nB : Nat)
    (uvwShape dataShape : Shape) (uvws us0 : UvwArr) (data ds0 : DataArr) :
    ((fill_time_units wm nT nB).flatMap fun u => List.range' u.1 u.2) =
        List.range (nT * nB)
    ∧ (∀ su, fill_uvw_col wm nT nB uvwShape uvws us0 = .ok su →
        su = fill_uvw_writes wm nT nB uvws us0 ∧
        ((fill_uvw_units wm nT nB).flatMap fun u => List.range' u.1 u.2) =
          List.range (nT * nB))
    ∧ (∀ sd, fill_data_col wm nT nB dataShape data ds0 = .ok sd →
        sd = fill_data_writes wm nT nB data ds0 ∧
        ((fill_data_units wm nT nB).flatMap fun u => List.range' u.1 u.2) =
          List.range (nT * nB)) := by
  refine ⟨fill_time_units_tile wm nT nB, ?_, ?_⟩
  · intro su h
    by_cases hc : sliceFails wm nT nB uvwShape 2
    · simp [fill_uvw_col, hc] at h
    · simp only [fill_uvw_col, if_neg hc, Except.ok.injEq] at h
      subst h
      exact ⟨rfl, by rw [fill_uvw_units_eq]; exact fill_time_units_tile wm nT nB⟩
  · intro sd h
    by_cases hc : sliceFails wm nT nB dataShape 3
    · simp [fill_data_col, hc] at h
    · simp only [fill_data_col, if_neg hc, Except.ok.injEq] at h
      subst h
      exact ⟨rfl, by rw [fill_data_units_eq]; exact fill_time_units_tile wm nT nB⟩

/-- C5 witness: the amended theorem's UVW part at CELLS granularity, shape
1×1 with the full (3, 1) uvw shape, where the fill succeeds. -/
theorem C5_witness :
    ((fill_uvw_units .CELLS 1 1).flatMap fun u => List.range' u.1 u.2) =
      List.range (1 * 1) :=
  ((C5_units_tile .CELLS 1 1 [3, 1] [1, 1, 1] zeroUvw zeroUvw zeroData
    zeroData).2.1 (fill_uvw_writes .CELLS 1 1 zeroUvw zeroUvw) rfl).2

/-- C6 counterexample: compare_data_col is not a pure element-wise value
comparison — at nPols=1, nChs=1 (one row) it aborts with the row-0 shape
error, comparing the fixed cell shape (1, 1) against the degenerate-stripped
reference slice (1), even though every element matches (store and reference
are identical). -/
theorem C6_counterexample :
    compare_data_col 1 1 1 [1, 1, 1] zeroData zeroData =
      .error (.rowShape 0 [1, 1] [1]) ∧
    compare_data_values 1 1 1 zeroData zeroData = .ok () := ⟨rfl, rfl⟩

/-- C6 (amended): the TIME comparison is a pure element-wise equality check:
it succeeds iff all elements match, and on failure the raised error names
the first mismatching element in loop order with everything strictly
earlier agreeing (fail-fast). The UVW and DATA comparisons first check the
reference array's whole shape against the column's, and per row the fixed
cell shape against the degenerate-stripped reference slice — for DATA
that per-row check fails whenever nPols = 1 or nChs = 1; hence the
element-wise reading holds for them when those checks pass: at the full
column shape, with nPols ≥ 2 and nChs ≥ 2, success is exactly all-elements
match and any error is a `.value` error naming the first mismatch in loop
order. -/
theorem C6_validator_fail_fast (nT nB nC nP : Nat) (hC : nC ≠ 1)
    (hP : nP ≠ 1) (ts times : TimeArr) (us uvws : UvwArr) (ds data : DataArr) :
    (compare_time_col nT nB ts times = .ok () ↔ ∀ i < nT * nB, ts i = times i)
    ∧ (∀ e, compare_time_col nT nB ts times = .error e →
        e.row < nT * nB ∧ ts e.row ≠ times e.row ∧ e.actual = ts e.row ∧
        e.expected = times e.row ∧ ∀ i < e.row, ts i = times i)
    ∧ (compare_uvw_col (nT * nB) [3, nT * nB] us uvws = .ok () ↔
        ∀ i < nT * nB, ∀ j < 3, us j i = uvws j i)
    ∧ (∀ e', compare_uvw_col (nT * nB) [3, nT * nB] us uvws = .error e' →
        ∃ e, e' = .value e ∧
        e.row < nT * nB ∧ e.j < 3 ∧ us e.j e.row ≠ uvws e.j e.row ∧
        e.actual = us e.j e.row ∧ e.expected = uvws e.j e.row ∧
        ∀ i j, j < 3 → (i < e.row ∨ (i = e.row ∧ j < e.j)) →
          us j i = uvws j i)
    ∧ (compare_data_col (nT * nB) nC nP [nP, nC, nT * nB] ds data = .ok () ↔
        ∀ i < nT * nB, ∀ j < nC, ∀ k < nP, ds k j i = data k j i)
    ∧ (∀ e', compare_data_col (nT * nB) nC nP [nP, nC, nT * nB] ds data =
          .error e' →
        ∃ e, e' = .value e ∧
        e.row < nT * nB ∧ e.j < nC ∧ e.k < nP ∧
        ds e.k e.j e.row ≠ data e.k e.j e.row ∧
        e.actual = ds e.k e.j e.row ∧ e.expected = data e.k e.j e.row ∧
        ∀ i j k, j < nC → k < nP →
          (i < e.row ∨ (i = e.row ∧ (j < e.j ∨ (j = e.j ∧ k < e.k)))) →
          ds k j i = data k j i) := by
  refine ⟨compare_time_col_ok_iff nT nB ts times,
    fun e h => compare_time_col_error nT nB ts times e h, ?_, ?_, ?_, ?_⟩
  · rw [compare_uvw_col_eq_values, mapError_eq_ok]
    exact compare_uvw_values_ok_iff (nT * nB) us uvws
  · intro e' h
    rw [compare_uvw_col_eq_values, mapError_eq_error] at h
    obtain ⟨e, hx, he⟩ := h
    exact ⟨e, he, compare_uvw_values_error (nT * nB) us uvws e hx⟩
  · rw [compare_data_col_eq_values (nT * nB) nC nP hP hC, mapError_eq_ok]
    exact compare_data_values_ok_iff (nT * nB) nC nP ds data
  · intro e' h
    rw [compare_data_col_eq_values (nT * nB) nC nP hP hC,
      mapError_eq_error] at h
    obtain ⟨e, hx, he⟩ := h
    exact ⟨e, he, compare_data_values_error (nT * nB) nC nP ds data e hx⟩

/-- C6 witness: the theorem's TIME exactness direction at a concrete 1-row
store that agrees with its reference (the shape hypotheses discharged at
nChs = nPols = 2): the comparison succeeds. -/
theorem C6_witness :
    compare_time_col 1 1 indgen indgen = .ok () :=
  (C6_validator_fail_fast 1 1 2 2 (by decide) (by decide) indgen indgen
    zeroUvw zeroUvw zeroData zeroData).1.mpr fun i hi => rfl

/-- C7: for every configuration requesting both streaming and validation,
the run is rejected with the "stream will fill table with junk, and does not
validate" error before any store activity: the event trace is empty (no
table creation, no writes) and the process fails (uncaught exception,
non-zero exit). -/
theorem C7_stream_validate_rejected (a : Args) (ts0 : TimeArr) (us0 : UvwArr)
    (ds0 : DataArr) (hs : a.stream = true) (hv : a.validate = true) :
    runMain a ts0 us0 ds0 = ([], .error .streamValidate) := by
  simp [runMain, hs, hv]

/-- Concrete configuration -s -V (all other options default). -/
def argsStreamValidate : Args := { validate := true, stream := true }

/-- C7 witness: the theorem at the concrete -s -V configuration. -/
theorem C7_witness :
    runMain argsStreamValidate zeroTime zeroUvw zeroData =
      ([], .error .streamValidate) :=
  C7_stream_validate_rejected argsStreamValidate zeroTime zeroUvw zeroData
    rfl rfl

/-- C8: for every valid shape and row i < rowCount, the synthesized TIME
value is exactly i, and each UVW component j < 3 is exactly i + (j+1)*0.1. -/
theorem C8_time_uvw_synthesis (T B : Nat) (a0 : UvwArr) (hT : 1 ≤ T)
    (hB : 1 ≤ B) :
    ∀ i < T * B, indgen i = (i : ℚ) ∧
      ∀ j < 3, synth_uvws (T * B) a0 j i =
        (i : ℚ) + ((j : ℚ) + 1) * (1 / 10) := by
  intro i hi
  refine ⟨rfl, ?_⟩
  intro j hj
  rw [synth_uvws_apply, if_pos ⟨hj, hi⟩]

/-- C8 witness: the theorem at shape T=2, B=3, row 1, component 0. -/
theorem C8_witness :
    indgen 1 = ((1 : Nat) : ℚ) ∧
      synth_uvws (2 * 3) zeroUvw 0 1 =
        ((1 : Nat) : ℚ) + (((0 : Nat) : ℚ) + 1) * (1 / 10) := by
  have h := C8_time_uvw_synthesis 2 3 zeroUvw (by norm_num) (by norm_num) 1
    (by norm_num)
  exact ⟨h.1, h.2 0 (by norm_num)⟩

/-- Concrete validation configuration: -t time -V with shape 1×1×1×1. -/
def argsValidateTime : Args :=
  { nIters := 100, nTimes := 1, nBls := 1, nChs := 1, nPols := 1,
    verbosity := 0, writeMode := .CELL, tableType := .TIME,
    validate := true, stream := false }

/-- Concrete validation configuration: -t data -V with nPols = 1
(shape T=1, B=1, C=2, P=1) at CELLS granularity. -/
def argsValidateDataP1 : Args :=
  { nIters := 100, nTimes := 1, nBls := 1, nChs := 2, nPols := 1,
    verbosity := 0, writeMode := .CELLS, tableType := .DATA,
    validate := true, stream := false }

/-- C9 counterexample: an accepted configuration (validating, not streaming,
not rowwise-with-column) that never reaches PASS: -t data with nPols = 1 at
CELLS granularity fills the column, but compare_data_col aborts at row 0
comparing the fixed cell shape (1, 2) against the degenerate-stripped
reference slice (2) — the claim's unconditional PASS-and-exit-0 for
accepted configurations is false. -/
theorem C9_counterexample :
    runMain argsValidateDataP1 zeroTime zeroUvw zeroData =
      ([.tableCreated, .write .DATA 0 1],
        .error (.dataError (.rowShape 0 [1, 2] [2]))) ∧
    Ev.pass ∉ (runMain argsValidateDataP1 zeroTime zeroUvw zeroData).1 := by
  have h : runMain argsValidateDataP1 zeroTime zeroUvw zeroData =
      ([.tableCreated, .write .DATA 0 1],
        .error (.dataError (.rowShape 0 [1, 2] [2]))) := rfl
  exact ⟨h, by rw [h]; decide⟩

/-- C9 (amended): in validation mode the -i iteration count has no effect on
the run; and when the configuration is accepted AND its shapes survive the
degenerate-shape hazards — at least one time step and baseline, and
validate_config_ok: TIME always; any pass touching UVW needs rowCount ≥ 2
under CELL; any pass touching DATA needs nPols ≥ 2 and nChs ≥ 2 (and
rowCount ≥ 2 under CELL); ROWWISE excludes COLUMN granularity — the run
performs exactly one fill pass over the selected field(s), then one
comparison pass per selected field, prints PASS and exits 0 without
entering the timed benchmark loop (no timing report event). -/
theorem C9_validate_mode (a : Args) (n m : Int) (ts0 : TimeArr) (us0 : UvwArr)
    (ds0 : DataArr) :
    (a.validate = true →
      runMain { a with nIters := n } ts0 us0 ds0 =
        runMain { a with nIters := m } ts0 us0 ds0)
    ∧ (a.validate = true → a.stream = false → 1 ≤ a.nTimes → 1 ≤ a.nBls →
        validate_config_ok a →
        runMain a ts0 us0 ds0 =
          (.tableCreated :: (validate_fill_trace a ++
            compared_trace a.tableType ++ [.pass]), .ok 0)) := by
  constructor
  · intro hv
    rw [runMain_validate_eq a ts0 us0 ds0 hv n,
      runMain_validate_eq a ts0 us0 ds0 hv m]
  · intro hv hs hT hB hok
    simp only [runMain, hv]
    rw [if_neg (by simp [hs]), if_pos trivial,
      validate_run_ok a ts0 us0 ds0 _ _ _ hT hB hok]

/-- C9 witness: the amended theorem's success part at the concrete -t time
-V configuration (validate_config_ok is trivial for TIME). -/
theorem C9_witness :
    runMain argsValidateTime zeroTime zeroUvw zeroData =
      (.tableCreated :: (validate_fill_trace argsValidateTime ++
        compared_trace argsValidateTime.tableType ++ [.pass]), .ok 0) :=
  (C9_validate_mode argsValidateTime 0 1 zeroTime zeroUvw zeroData).2 rfl rfl
    (by decide) (by decide) trivial

/-- C10: a command-line token that does not begin with '-' and is reached as
a fresh token (not consumed as the value of a preceding option — it stands at
the head of the remaining argv) is silently skipped: no error, no usage, no
effect on the configuration; whereas a token beginning with '-' whose option
character is unknown is a fatal error. -/
theorem C10_arg_parsing (a : Args) (t : List Char)
    (rest : List (List Char)) :
    (t.headD (Char.ofNat 0) ≠ '-' →
      parseLoop a (t :: rest) = parseLoop a rest)
    ∧ (∀ cs, t = '-' :: cs →
        cs.headD (Char.ofNat 0) ∉
          (['h', 'v', 'q', 's', 'V', 'i', 't', 'w', 'T', 'B', 'C', 'P'] :
            List Char) →
        parseLoop a (t :: rest) = .error (.unknownOption t)) := by
  constructor
  · intro h
    have hstep : parseStep a t rest = .next a false := by
      cases t with
      | nil => rfl
      | cons c cs =>
        simp only [List.headD_cons] at h
        simp only [parseStep]
        split
        · rename_i heq
          exact absurd (List.cons.inj heq).1 h
        · rfl
    simp only [parseLoop, List.length_cons, parseLoopF, hstep]
    simp
  · intro cs ht hunk
    subst ht
    simp only [List.mem_cons, List.not_mem_nil, or_false, not_or] at hunk
    obtain ⟨h1, h2, h3, h4, h5, h6, h7, h8, h9, h10, h11, h12⟩ := hunk
    have hstep : parseStep a ('-' :: cs) rest =
        .stop (.error (.unknownOption ('-' :: cs))) := by
      simp only [parseStep]
      rw [if_neg h1, if_neg h2, if_neg h3, if_neg h4, if_neg h5, if_neg h6,
        if_neg h7, if_neg h8, if_neg h9, if_neg h10, if_neg h11, if_neg h12]
    simp only [parseLoop, List.length_cons, parseLoopF, hstep]

/-- C10 witness: a stray non-dash token is skipped with no effect; an
unknown dash option is a fatal error. -/
theorem C10_witness :
    parseLoop {} ["stray".data] = parseLoop {} [] ∧
    parseLoop {} ["-x".data] = .error (.unknownOption "-x".data) := by
  refine ⟨(C10_arg_parsing {} "stray".data []).1 (by decide),
    (C10_arg_parsing {} "-x".data []).2 "x".data (by decide) (by decide)⟩

end CasaBench
